import Mathlib

/-
  Verification development for the XRT AIE graph/profiling shim
  (core/common/api/aie/xrt_graph.cpp).

  The file shallowly embeds the shim: the external core device is an
  abstract oracle (a record of pure functions returning either a value or
  a C++ exception), and the shim's process-wide state (the two handle
  registries, errno, the message log, and a trace of device invocations)
  is threaded explicitly.  Each C-style entry point is a total function
  returning its C return value together with the next state; a C++
  exception escaping the try block is represented by the Except error of
  the corresponding body, which the entry point translates exactly as the
  catch blocks of the source do.
-/

namespace Xrt

/-- A C++ exception as seen by the catch clauses of the shim: either an
xrt_core::error carrying a native error code, or a plain std::exception. -/
inductive CppError where
  | xrtError (code : Int) (msg : String)
  | stdError (msg : String)
deriving DecidableEq, Repr

/-- The what() message of an exception. -/
def CppError.msg : CppError → String
  | .xrtError _ m => m
  | .stdError m => m

/-- xrt::graph::access_mode. -/
inductive AccessMode where
  | primary
  | exclusive
  | shared
deriving DecidableEq, Repr

/-- xrt::aie::access_mode. -/
inductive AieAccessMode where
  | primary
  | exclusive
  | shared
deriving DecidableEq, Repr

/-- One invocation of the external device abstraction (or of the
device-open layer below this file), as recorded in the call trace. -/
inductive DeviceCall where
  | openGraph (uuid : Nat) (name : String) (am : AccessMode)
  | closeGraph (ghdl : Nat)
  | resetGraph (ghdl : Nat)
  | getTimestamp (ghdl : Nat)
  | runGraph (ghdl : Nat) (iterations : Int)
  | waitGraphDone (ghdl : Nat) (timeout : Int)
  | waitGraph (ghdl : Nat) (cycle : Nat)
  | suspendGraph (ghdl : Nat)
  | resumeGraph (ghdl : Nat)
  | endGraph (ghdl : Nat) (cycle : Nat)
  | updateGraphRtp (ghdl : Nat) (port : String) (size : Nat)
  | readGraphRtp (ghdl : Nat) (port : String) (size : Nat)
  | openAieContext (am : AieAccessMode)
  | syncAieBo (bo : Nat) (gmio : String) (dir : Nat) (size : Nat) (offset : Nat)
  | syncAieBoNb (bo : Nat) (gmio : String) (dir : Nat) (size : Nat) (offset : Nat)
  | resetAie
  | waitGmio (gmio : String)
  | startProfiling (option : Int) (port1 : String) (port2 : String) (value : Nat)
  | readProfiling (phdl : Int)
  | stopProfiling (phdl : Int)
  | deviceOpen (index : Nat)
  | deviceClose (dhdl : Nat)
deriving DecidableEq, Repr

/-- The external device abstraction (xrt_core::device) together with the
two lookups the shim performs outside of it.  Every operation either
yields a value or raises a C++ exception; the oracle is otherwise
unconstrained, exactly matching the shim's view of it. -/
structure Device where
  open_graph : Nat → String → AccessMode → Except CppError Nat
  close_graph : Nat → Except CppError Unit
  reset_graph : Nat → Except CppError Unit
  get_timestamp : Nat → Except CppError Nat
  run_graph : Nat → Int → Except CppError Unit
  wait_graph_done : Nat → Int → Except CppError Int
  wait_graph : Nat → Nat → Except CppError Unit
  suspend_graph : Nat → Except CppError Unit
  resume_graph : Nat → Except CppError Unit
  end_graph : Nat → Nat → Except CppError Unit
  update_graph_rtp : Nat → String → Nat → Except CppError Unit
  read_graph_rtp : Nat → String → Nat → Except CppError Unit
  open_aie_context : AieAccessMode → Except CppError Unit
  sync_aie_bo : Nat → String → Nat → Nat → Nat → Except CppError Unit
  sync_aie_bo_nb : Nat → String → Nat → Nat → Nat → Except CppError Unit
  reset_aie : Except CppError Unit
  wait_gmio : String → Except CppError Unit
  start_profiling : Int → String → String → Nat → Except CppError Int
  read_profiling : Int → Except CppError Nat
  stop_profiling : Int → Except CppError Unit
  get_core_device : Nat → Except CppError Unit
  get_bo : Nat → Except CppError Unit
  xrt_device_open : Nat → Except CppError Nat

/-- xrt::graph_impl: device reference (implicit, one device oracle in
scope) plus the driver-assigned xclGraphHandle. -/
structure graph_impl where
  handle : Nat
deriving DecidableEq, Repr

/-- xrt::aie::profiling_impl: the driver-assigned profiling handle,
initialised to the invalid_handle sentinel. -/
structure profiling_impl where
  profiling_hdl : Int
deriving DecidableEq, Repr

/-- profiling_impl::invalid_handle. -/
def invalid_handle : Int := -1

/-- errno value EINVAL. -/
def EINVAL : Int := 22

/-- XRT_NULL_HANDLE (nullptr). -/
def XRT_NULL_HANDLE : Nat := 0

/-- std::numeric_limits of uint64_t, max(). -/
def UINT64_MAX : Nat := 2 ^ 64 - 1

/-- The shim's process-wide mutable state: the two C-API handle
registries, the process error-code variable, the message sink, the trace
of calls issued to the layers below, and the next fresh heap address
(C-API graph handles are the addresses of the shared graph_impl
objects). -/
structure ShimState where
  graph_cache : List (Nat × graph_impl)
  profiling_cache : List (Int × profiling_impl)
  errno : Int
  log : List String
  trace : List DeviceCall
  next_ptr : Nat
deriving DecidableEq, Repr

/-- Association-list lookup (std::map::find). -/
def lookupA {K V : Type} [DecidableEq K] : List (K × V) → K → Option V
  | [], _ => none
  | (k, v) :: rest, key => if k = key then some v else lookupA rest key

/-- Association-list erase of the entry with the given key
(std::map::erase; keys of the registries are unique). -/
def eraseA {K V : Type} [DecidableEq K] : List (K × V) → K → List (K × V)
  | [], _ => []
  | (k, v) :: rest, key => if k = key then rest else (k, v) :: eraseA rest key

/-- Association-list insert-or-assign (std::map::operator[] followed by
assignment). -/
def insertA {K V : Type} [DecidableEq K] : List (K × V) → K → V → List (K × V)
  | [], key, v => [(key, v)]
  | (k, w) :: rest, key, v =>
      if k = key then (key, v) :: rest else (k, w) :: insertA rest key v

/-- Append a device invocation to the trace. -/
def recordCall (s : ShimState) (c : DeviceCall) : ShimState :=
  { s with trace := s.trace ++ [c] }

/-- xrt_core::message::send via send_exception_message: append the
diagnostic to the process-wide message sink. -/
def logMsg (s : ShimState) (m : String) : ShimState :=
  { s with log := s.log ++ [m] }

/-- The catch blocks shared by every C-style entry point: an
xrt_core::error is logged and its code stored into errno; any other
std::exception is logged only. -/
def handleFailure (s : ShimState) : CppError → ShimState
  | CppError.xrtError code m => { s with errno := code, log := s.log ++ [m] }
  | CppError.stdError m => { s with log := s.log ++ [m] }

/-! ## graph_impl methods (xrt_graph.cpp lines 41-110)

Each method forwards unconditionally to the device; the invocation is
recorded in the trace and the device's outcome (value or exception) is
returned unchanged. -/

/-- graph_impl destructor: device close_graph on the stored handle.  (The
C++ destructor has no try/catch; the result is not translated here, a
throwing device close during destruction would terminate the process.) -/
def graph_impl.destruct (dev : Device) (g : graph_impl) (s : ShimState) : ShimState :=
  let _ := dev.close_graph g.handle
  recordCall s (DeviceCall.closeGraph g.handle)

/-- graph_impl::reset. -/
def graph_impl.reset (dev : Device) (g : graph_impl) (s : ShimState) :
    Except CppError Unit × ShimState :=
  (dev.reset_graph g.handle, recordCall s (DeviceCall.resetGraph g.handle))

/-- graph_impl::get_timestamp. -/
def graph_impl.get_timestamp (dev : Device) (g : graph_impl) (s : ShimState) :
    Except CppError Nat × ShimState :=
  (dev.get_timestamp g.handle, recordCall s (DeviceCall.getTimestamp g.handle))

/-- graph_impl::run. -/
def graph_impl.run (dev : Device) (g : graph_impl) (iterations : Int) (s : ShimState) :
    Except CppError Unit × ShimState :=
  (dev.run_graph g.handle iterations, recordCall s (DeviceCall.runGraph g.handle iterations))

/-- graph_impl::wait(int timeout): the timeout overload, forwarding to
wait_graph_done. -/
def graph_impl.wait_timeout (dev : Device) (g : graph_impl) (timeout : Int) (s : ShimState) :
    Except CppError Int × ShimState :=
  (dev.wait_graph_done g.handle timeout, recordCall s (DeviceCall.waitGraphDone g.handle timeout))

/-- graph_impl::wait(uint64_t cycle): the cycle overload, forwarding to
wait_graph. -/
def graph_impl.wait_cycle (dev : Device) (g : graph_impl) (cycle : Nat) (s : ShimState) :
    Except CppError Unit × ShimState :=
  (dev.wait_graph g.handle cycle, recordCall s (DeviceCall.waitGraph g.handle cycle))

/-- graph_impl::suspend. -/
def graph_impl.suspend (dev : Device) (g : graph_impl) (s : ShimState) :
    Except CppError Unit × ShimState :=
  (dev.suspend_graph g.handle, recordCall s (DeviceCall.suspendGraph g.handle))

/-- graph_impl::resume. -/
def graph_impl.resume (dev : Device) (g : graph_impl) (s : ShimState) :
    Except CppError Unit × ShimState :=
  (dev.resume_graph g.handle, recordCall s (DeviceCall.resumeGraph g.handle))

/-- graph_impl::end. -/
def graph_impl.end_graph (dev : Device) (g : graph_impl) (cycle : Nat) (s : ShimState) :
    Except CppError Unit × ShimState :=
  (dev.end_graph g.handle cycle, recordCall s (DeviceCall.endGraph g.handle cycle))

/-- graph_impl::update_rtp. -/
def graph_impl.update_rtp (dev : Device) (g : graph_impl) (port : String) (size : Nat)
    (s : ShimState) : Except CppError Unit × ShimState :=
  (dev.update_graph_rtp g.handle port size, recordCall s (DeviceCall.updateGraphRtp g.handle port size))

/-- graph_impl::read_rtp. -/
def graph_impl.read_rtp (dev : Device) (g : graph_impl) (port : String) (size : Nat)
    (s : ShimState) : Except CppError Unit × ShimState :=
  (dev.read_graph_rtp g.handle port size, recordCall s (DeviceCall.readGraphRtp g.handle port size))

/-! ## profiling_impl methods (xrt_graph.cpp lines 117-169) -/

/-- profiling_impl destructor: always attempts device stop_profiling on
the current handle (sentinel included) and swallows any exception
(catch-all with empty body). -/
def profiling_impl.destruct (dev : Device) (p : profiling_impl) (s : ShimState) : ShimState :=
  let _ := dev.stop_profiling p.profiling_hdl
  recordCall s (DeviceCall.stopProfiling p.profiling_hdl)

/-- profiling_impl::start_profiling: forwards to the device with no
validation of the option; on success the returned handle is stored in
the object.  Returns (device outcome, updated object). -/
def profiling_impl.start_profiling (dev : Device) (p : profiling_impl) (option : Int)
    (port1 port2 : String) (value : Nat) (s : ShimState) :
    (Except CppError Int × profiling_impl) × ShimState :=
  let s' := recordCall s (DeviceCall.startProfiling option port1 port2 value)
  match dev.start_profiling option port1 port2 value with
  | Except.ok h => ((Except.ok h, { profiling_hdl := h }), s')
  | Except.error e => ((Except.error e, p), s')

/-- profiling_impl::read_profiling: rejects the sentinel handle with
-EINVAL before any device call, otherwise forwards. -/
def profiling_impl.read_profiling (dev : Device) (p : profiling_impl) (s : ShimState) :
    Except CppError Nat × ShimState :=
  if p.profiling_hdl = invalid_handle then
    (Except.error (CppError.xrtError (-EINVAL) "Not a valid profiling handle"), s)
  else
    (dev.read_profiling p.profiling_hdl, recordCall s (DeviceCall.readProfiling p.profiling_hdl))

/-- profiling_impl::stop_profiling: rejects the sentinel handle with
-EINVAL before any device call; on a successful device stop the stored
handle is reset to the sentinel (an exception from the device skips the
reset).  Returns (outcome, updated object). -/
def profiling_impl.stop_profiling (dev : Device) (p : profiling_impl) (s : ShimState) :
    (Except CppError Unit × profiling_impl) × ShimState :=
  if p.profiling_hdl = invalid_handle then
    ((Except.error (CppError.xrtError (-EINVAL) "Not a valid profiling handle"), p), s)
  else
    let s' := recordCall s (DeviceCall.stopProfiling p.profiling_hdl)
    match dev.stop_profiling p.profiling_hdl with
    | Except.ok _ => ((Except.ok (), { profiling_hdl := invalid_handle }), s')
    | Except.error e => ((Except.error e, p), s')

/-! ## Object-oriented surface (xrt::graph, xrt::aie::profiling)

These methods forward through the impl object and let exceptions
propagate to the caller unchanged. -/

/-- xrt::graph::wait(std::chrono::milliseconds): a zero timeout is
dispatched to the cycle overload with cycle 0; a nonzero timeout goes to
the timeout overload (whose int status is discarded). -/
def graph.wait_ms (dev : Device) (g : graph_impl) (timeout_ms : Int) (s : ShimState) :
    Except CppError Unit × ShimState :=
  if timeout_ms = 0 then
    graph_impl.wait_cycle dev g 0 s
  else
    match graph_impl.wait_timeout dev g timeout_ms s with
    | (Except.ok _, s') => (Except.ok (), s')
    | (Except.error e, s') => (Except.error e, s')

/-- xrt::graph::wait(uint64_t cycles): forwards to the cycle overload. -/
def graph.wait_cycles (dev : Device) (g : graph_impl) (cycles : Nat) (s : ShimState) :
    Except CppError Unit × ShimState :=
  graph_impl.wait_cycle dev g cycles s

/-- xrt::aie::profiling::start: casts the option to int and forwards to
start_profiling with no range check of its own. -/
def profiling.start (dev : Device) (p : profiling_impl) (opt : Int) (port1 port2 : String)
    (value : Nat) (s : ShimState) : (Except CppError Int × profiling_impl) × ShimState :=
  profiling_impl.start_profiling dev p opt port1 port2 value s

/-- xrt::aie::profiling::read. -/
def profiling.read (dev : Device) (p : profiling_impl) (s : ShimState) :
    Except CppError Nat × ShimState :=
  profiling_impl.read_profiling dev p s

/-- xrt::aie::profiling::stop. -/
def profiling.stop (dev : Device) (p : profiling_impl) (s : ShimState) :
    (Except CppError Unit × profiling_impl) × ShimState :=
  profiling_impl.stop_profiling dev p s

/-! ## Registry helpers (anonymous namespace, xrt_graph.cpp lines 173-275) -/

/-- open_graph (the C-handle overload): resolve the core device for the
device handle, open the graph on the device, and allocate a fresh shared
graph_impl; its address (next_ptr) is the C-API graph handle. -/
def open_graph_c (dev : Device) (dhdl : Nat) (uuid : Nat) (name : String) (am : AccessMode)
    (s : ShimState) : Except CppError (Nat × graph_impl) × ShimState :=
  match dev.get_core_device dhdl with
  | Except.error e => (Except.error e, s)
  | Except.ok _ =>
    let s1 := recordCall s (DeviceCall.openGraph uuid name am)
    match dev.open_graph uuid name am with
    | Except.error e => (Except.error e, s1)
    | Except.ok h => (Except.ok (s1.next_ptr, { handle := h }), { s1 with next_ptr := s1.next_ptr + 1 })

/-- get_graph_hdl: resolve a C-API graph handle through the registry;
absence raises -EINVAL. -/
def get_graph_hdl (s : ShimState) (ghdl : Nat) : Except CppError graph_impl :=
  match lookupA s.graph_cache ghdl with
  | none => Except.error (CppError.xrtError (-EINVAL) "No such graph handle")
  | some g => Except.ok g

/-- close_graph: erase the registry entry; erasing an absent handle
raises a generic std::runtime_error.  Erasing a present entry drops the
registry's (sole) shared reference to the graph_impl, so its destructor
runs and releases the driver handle. -/
def close_graph (dev : Device) (ghdl : Nat) (s : ShimState) :
    Except CppError Unit × ShimState :=
  match lookupA s.graph_cache ghdl with
  | none => (Except.error (CppError.stdError "Unexpected internal error"), s)
  | some g =>
    (Except.ok (), graph_impl.destruct dev g { s with graph_cache := eraseA s.graph_cache ghdl })

/-- open_aie_context: resolve the core device, then open the AIE context
under the given access mode. -/
def open_aie_context (dev : Device) (dhdl : Nat) (am : AieAccessMode) (s : ShimState) :
    Except CppError Unit × ShimState :=
  match dev.get_core_device dhdl with
  | Except.error e => (Except.error e, s)
  | Except.ok _ => (dev.open_aie_context am, recordCall s (DeviceCall.openAieContext am))

/-- sync_aie_bo: resolve the core device, reconstruct the buffer object
from its handle, then forward the blocking sync. -/
def sync_aie_bo (dev : Device) (dhdl : Nat) (bohdl : Nat) (gmio : String) (dir : Nat)
    (size offset : Nat) (s : ShimState) : Except CppError Unit × ShimState :=
  match dev.get_core_device dhdl with
  | Except.error e => (Except.error e, s)
  | Except.ok _ =>
    match dev.get_bo bohdl with
    | Except.error e => (Except.error e, s)
    | Except.ok _ =>
      (dev.sync_aie_bo bohdl gmio dir size offset,
       recordCall s (DeviceCall.syncAieBo bohdl gmio dir size offset))

/-- sync_aie_bo_nb: as sync_aie_bo, with the non-blocking device call. -/
def sync_aie_bo_nb (dev : Device) (dhdl : Nat) (bohdl : Nat) (gmio : String) (dir : Nat)
    (size offset : Nat) (s : ShimState) : Except CppError Unit × ShimState :=
  match dev.get_core_device dhdl with
  | Except.error e => (Except.error e, s)
  | Except.ok _ =>
    match dev.get_bo bohdl with
    | Except.error e => (Except.error e, s)
    | Except.ok _ =>
      (dev.sync_aie_bo_nb bohdl gmio dir size offset,
       recordCall s (DeviceCall.syncAieBoNb bohdl gmio dir size offset))

/-- reset_aie: resolve the core device, then reset the AIE array. -/
def reset_aie (dev : Device) (dhdl : Nat) (s : ShimState) :
    Except CppError Unit × ShimState :=
  match dev.get_core_device dhdl with
  | Except.error e => (Except.error e, s)
  | Except.ok _ => (dev.reset_aie, recordCall s DeviceCall.resetAie)

/-- wait_gmio: resolve the core device, then wait for the GMIO channel. -/
def wait_gmio (dev : Device) (dhdl : Nat) (gmio : String) (s : ShimState) :
    Except CppError Unit × ShimState :=
  match dev.get_core_device dhdl with
  | Except.error e => (Except.error e, s)
  | Except.ok _ => (dev.wait_gmio gmio, recordCall s (DeviceCall.waitGmio gmio))

/-- create_profiling_event: resolve the core device and allocate a fresh
profiling_impl holding the sentinel handle. -/
def create_profiling_event (dev : Device) (dhdl : Nat) (s : ShimState) :
    Except CppError profiling_impl × ShimState :=
  match dev.get_core_device dhdl with
  | Except.error e => (Except.error e, s)
  | Except.ok _ => (Except.ok { profiling_hdl := invalid_handle }, s)

/-- Modelled from the spec: xrtDeviceOpen lives outside this file set; per
the spec, opening a device for AIE use first opens the underlying device,
yielding its handle. -/
def xrtDeviceOpen (dev : Device) (index : Nat) (s : ShimState) :
    Except CppError Nat × ShimState :=
  (dev.xrt_device_open index, recordCall s (DeviceCall.deviceOpen index))

/-! ## C-style entry points (xrt_graph.cpp lines 424-933)

Each function is the try block of the source followed by the two catch
clauses (handleFailure) and the sentinel return. -/

/-- xrtGraphOpen (access mode primary): open and register the graph, or
return the null handle. -/
def xrtGraphOpen (dev : Device) (dhdl : Nat) (uuid : Nat) (name : String) (s : ShimState) :
    Nat × ShimState :=
  match open_graph_c dev dhdl uuid name AccessMode.primary s with
  | (Except.ok (p, g), s') => (p, { s' with graph_cache := insertA s'.graph_cache p g })
  | (Except.error e, s') => (XRT_NULL_HANDLE, handleFailure s' e)

/-- xrtGraphOpenExclusive. -/
def xrtGraphOpenExclusive (dev : Device) (dhdl : Nat) (uuid : Nat) (name : String)
    (s : ShimState) : Nat × ShimState :=
  match open_graph_c dev dhdl uuid name AccessMode.exclusive s with
  | (Except.ok (p, g), s') => (p, { s' with graph_cache := insertA s'.graph_cache p g })
  | (Except.error e, s') => (XRT_NULL_HANDLE, handleFailure s' e)

/-- xrtGraphOpenShared. -/
def xrtGraphOpenShared (dev : Device) (dhdl : Nat) (uuid : Nat) (name : String)
    (s : ShimState) : Nat × ShimState :=
  match open_graph_c dev dhdl uuid name AccessMode.shared s with
  | (Except.ok (p, g), s') => (p, { s' with graph_cache := insertA s'.graph_cache p g })
  | (Except.error e, s') => (XRT_NULL_HANDLE, handleFailure s' e)

/-- xrtGraphClose: void return; failures only logged (and errno set when
the exception carries a code). -/
def xrtGraphClose (dev : Device) (ghdl : Nat) (s : ShimState) : Unit × ShimState :=
  match close_graph dev ghdl s with
  | (Except.ok _, s') => ((), s')
  | (Except.error e, s') => ((), handleFailure s' e)

/-- xrtGraphReset. -/
def xrtGraphReset (dev : Device) (ghdl : Nat) (s : ShimState) : Int × ShimState :=
  match get_graph_hdl s ghdl with
  | Except.error e => (-1, handleFailure s e)
  | Except.ok g =>
    match graph_impl.reset dev g s with
    | (Except.ok _, s') => (0, s')
    | (Except.error e, s') => (-1, handleFailure s' e)

/-- xrtGraphTimeStamp: returns the device timestamp, or UINT64_MAX. -/
def xrtGraphTimeStamp (dev : Device) (ghdl : Nat) (s : ShimState) : Nat × ShimState :=
  match get_graph_hdl s ghdl with
  | Except.error e => (UINT64_MAX, handleFailure s e)
  | Except.ok g =>
    match graph_impl.get_timestamp dev g s with
    | (Except.ok v, s') => (v, s')
    | (Except.error e, s') => (UINT64_MAX, handleFailure s' e)

/-- xrtGraphRun. -/
def xrtGraphRun (dev : Device) (ghdl : Nat) (iterations : Int) (s : ShimState) :
    Int × ShimState :=
  match get_graph_hdl s ghdl with
  | Except.error e => (-1, handleFailure s e)
  | Except.ok g =>
    match graph_impl.run dev g iterations s with
    | (Except.ok _, s') => (0, s')
    | (Except.error e, s') => (-1, handleFailure s' e)

/-- xrtGraphWaitDone: returns the device's wait status on success. -/
def xrtGraphWaitDone (dev : Device) (ghdl : Nat) (timeoutMilliSec : Int) (s : ShimState) :
    Int × ShimState :=
  match get_graph_hdl s ghdl with
  | Except.error e => (-1, handleFailure s e)
  | Except.ok g =>
    match graph_impl.wait_timeout dev g timeoutMilliSec s with
    | (Except.ok v, s') => (v, s')
    | (Except.error e, s') => (-1, handleFailure s' e)

/-- xrtGraphWait (cycle variant). -/
def xrtGraphWait (dev : Device) (ghdl : Nat) (cycle : Nat) (s : ShimState) :
    Int × ShimState :=
  match get_graph_hdl s ghdl with
  | Except.error e => (-1, handleFailure s e)
  | Except.ok g =>
    match graph_impl.wait_cycle dev g cycle s with
    | (Except.ok _, s') => (0, s')
    | (Except.error e, s') => (-1, handleFailure s' e)

/-- xrtGraphSuspend. -/
def xrtGraphSuspend (dev : Device) (ghdl : Nat) (s : ShimState) : Int × ShimState :=
  match get_graph_hdl s ghdl with
  | Except.error e => (-1, handleFailure s e)
  | Except.ok g =>
    match graph_impl.suspend dev g s with
    | (Except.ok _, s') => (0, s')
    | (Except.error e, s') => (-1, handleFailure s' e)

/-- xrtGraphResume. -/
def xrtGraphResume (dev : Device) (ghdl : Nat) (s : ShimState) : Int × ShimState :=
  match get_graph_hdl s ghdl with
  | Except.error e => (-1, handleFailure s e)
  | Except.ok g =>
    match graph_impl.resume dev g s with
    | (Except.ok _, s') => (0, s')
    | (Except.error e, s') => (-1, handleFailure s' e)

/-- xrtGraphEnd. -/
def xrtGraphEnd (dev : Device) (ghdl : Nat) (cycle : Nat) (s : ShimState) : Int × ShimState :=
  match get_graph_hdl s ghdl with
  | Except.error e => (-1, handleFailure s e)
  | Except.ok g =>
    match graph_impl.end_graph dev g cycle s with
    | (Except.ok _, s') => (0, s')
    | (Except.error e, s') => (-1, handleFailure s' e)

/-- xrtGraphUpdateRTP. -/
def xrtGraphUpdateRTP (dev : Device) (ghdl : Nat) (port : String) (size : Nat)
    (s : ShimState) : Int × ShimState :=
  match get_graph_hdl s ghdl with
  | Except.error e => (-1, handleFailure s e)
  | Except.ok g =>
    match graph_impl.update_rtp dev g port size s with
    | (Except.ok _, s') => (0, s')
    | (Except.error e, s') => (-1, handleFailure s' e)

/-- xrtGraphReadRTP. -/
def xrtGraphReadRTP (dev : Device) (ghdl : Nat) (port : String) (size : Nat)
    (s : ShimState) : Int × ShimState :=
  match get_graph_hdl s ghdl with
  | Except.error e => (-1, handleFailure s e)
  | Except.ok g =>
    match graph_impl.read_rtp dev g port size s with
    | (Except.ok _, s') => (0, s')
    | (Except.error e, s') => (-1, handleFailure s' e)

/-- xrtAIEDeviceOpen: open the underlying device, then establish an AIE
context in primary mode; on any failure return the null handle (the
already-open device is not closed). -/
def xrtAIEDeviceOpen (dev : Device) (index : Nat) (s : ShimState) : Nat × ShimState :=
  match xrtDeviceOpen dev index s with
  | (Except.error e, s1) => (XRT_NULL_HANDLE, handleFailure s1 e)
  | (Except.ok h, s1) =>
    match open_aie_context dev h AieAccessMode.primary s1 with
    | (Except.ok _, s2) => (h, s2)
    | (Except.error e, s2) => (XRT_NULL_HANDLE, handleFailure s2 e)

/-- xrtAIEDeviceOpenExclusive. -/
def xrtAIEDeviceOpenExclusive (dev : Device) (index : Nat) (s : ShimState) : Nat × ShimState :=
  match xrtDeviceOpen dev index s with
  | (Except.error e, s1) => (XRT_NULL_HANDLE, handleFailure s1 e)
  | (Except.ok h, s1) =>
    match open_aie_context dev h AieAccessMode.exclusive s1 with
    | (Except.ok _, s2) => (h, s2)
    | (Except.error e, s2) => (XRT_NULL_HANDLE, handleFailure s2 e)

/-- xrtAIEDeviceOpenShared. -/
def xrtAIEDeviceOpenShared (dev : Device) (index : Nat) (s : ShimState) : Nat × ShimState :=
  match xrtDeviceOpen dev index s with
  | (Except.error e, s1) => (XRT_NULL_HANDLE, handleFailure s1 e)
  | (Except.ok h, s1) =>
    match open_aie_context dev h AieAccessMode.shared s1 with
    | (Except.ok _, s2) => (h, s2)
    | (Except.error e, s2) => (XRT_NULL_HANDLE, handleFailure s2 e)

/-- xrtSyncBOAIE (blocking sync). -/
def xrtSyncBOAIE (dev : Device) (dhdl bohdl : Nat) (gmio : String) (dir : Nat)
    (size offset : Nat) (s : ShimState) : Int × ShimState :=
  match sync_aie_bo dev dhdl bohdl gmio dir size offset s with
  | (Except.ok _, s') => (0, s')
  | (Except.error e, s') => (-1, handleFailure s' e)

/-- xrtAIESyncBO: alias forwarding to xrtSyncBOAIE. -/
def xrtAIESyncBO (dev : Device) (dhdl bohdl : Nat) (gmio : String) (dir : Nat)
    (size offset : Nat) (s : ShimState) : Int × ShimState :=
  xrtSyncBOAIE dev dhdl bohdl gmio dir size offset s

/-- xrtSyncBOAIENB (non-blocking sync). -/
def xrtSyncBOAIENB (dev : Device) (dhdl bohdl : Nat) (gmio : String) (dir : Nat)
    (size offset : Nat) (s : ShimState) : Int × ShimState :=
  match sync_aie_bo_nb dev dhdl bohdl gmio dir size offset s with
  | (Except.ok _, s') => (0, s')
  | (Except.error e, s') => (-1, handleFailure s' e)

/-- xrtResetAIEArray. -/
def xrtResetAIEArray (dev : Device) (dhdl : Nat) (s : ShimState) : Int × ShimState :=
  match reset_aie dev dhdl s with
  | (Except.ok _, s') => (0, s')
  | (Except.error e, s') => (-1, handleFailure s' e)

/-- xrtAIEResetArray: alias forwarding to xrtResetAIEArray. -/
def xrtAIEResetArray (dev : Device) (dhdl : Nat) (s : ShimState) : Int × ShimState :=
  xrtResetAIEArray dev dhdl s

/-- xrtGMIOWait. -/
def xrtGMIOWait (dev : Device) (dhdl : Nat) (gmio : String) (s : ShimState) :
    Int × ShimState :=
  match wait_gmio dev dhdl gmio s with
  | (Except.ok _, s') => (0, s')
  | (Except.error e, s') => (-1, handleFailure s' e)

/-- xrtAIEStartProfiling: create a profiling event, range-check the
option (0..3) before the device start, start profiling and register the
handle.  Every throwing path destroys the local event (its destructor
attempts a device stop with the event's current handle) before the catch
clause runs; a registration over an existing key would likewise destroy
the displaced object. -/
def xrtAIEStartProfiling (dev : Device) (dhdl : Nat) (option : Int) (port1 port2 : String)
    (value : Nat) (s : ShimState) : Int × ShimState :=
  match create_profiling_event dev dhdl s with
  | (Except.error e, s1) => (-1, handleFailure s1 e)
  | (Except.ok event, s1) =>
    if option < 0 ∨ 3 < option then
      (-1, handleFailure (profiling_impl.destruct dev event s1)
             (CppError.xrtError (-EINVAL) "Not a valid profiling option"))
    else
      match profiling_impl.start_profiling dev event option port1 port2 value s1 with
      | ((Except.error e, event'), s2) =>
        (-1, handleFailure (profiling_impl.destruct dev event' s2) e)
      | ((Except.ok h, event'), s2) =>
        if h = invalid_handle then
          (-1, handleFailure (profiling_impl.destruct dev event' s2)
                 (CppError.xrtError (-EINVAL) "Not a valid profiling handle"))
        else
          let s3 := match lookupA s2.profiling_cache h with
                    | some old => profiling_impl.destruct dev old s2
                    | none => s2
          (h, { s3 with profiling_cache := insertA s3.profiling_cache h event' })

/-- xrtAIEReadProfiling: resolve the profiling handle through the
registry, or fail with -EINVAL; returns UINT64_MAX on failure. -/
def xrtAIEReadProfiling (dev : Device) (pHandle : Int) (s : ShimState) : Nat × ShimState :=
  match lookupA s.profiling_cache pHandle with
  | some p =>
    match profiling_impl.read_profiling dev p s with
    | (Except.ok v, s') => (v, s')
    | (Except.error e, s') => (UINT64_MAX, handleFailure s' e)
  | none => (UINT64_MAX, handleFailure s (CppError.xrtError (-EINVAL) "No such profiling handle"))

/-- xrtAIEStopProfiling: void return.  Resolve the handle, stop the
object's profiling (which resets its handle to the sentinel), then erase
the registry entry, which drops the sole reference and runs the
destructor (a device stop on the sentinel).  A device failure during the
explicit stop skips the erase. -/
def xrtAIEStopProfiling (dev : Device) (pHandle : Int) (s : ShimState) : Unit × ShimState :=
  match lookupA s.profiling_cache pHandle with
  | some p =>
    match profiling_impl.stop_profiling dev p s with
    | ((Except.ok _, p'), s') =>
      ((), profiling_impl.destruct dev p'
             { s' with profiling_cache := eraseA s'.profiling_cache pHandle })
    | ((Except.error e, _), s') => ((), handleFailure s' e)
  | none => ((), handleFailure s (CppError.xrtError (-EINVAL) "No such profiling handle"))

/-! ## Basic lemmas about the registries and the state helpers -/

theorem lookupA_eq_none_iff {K V : Type} [DecidableEq K] (m : List (K × V)) (k : K) :
    lookupA m k = none ↔ k ∉ m.map Prod.fst := by
  induction m with
  | nil => simp [lookupA]
  | cons a rest ih =>
    obtain ⟨ka, va⟩ := a
    by_cases h : ka = k
    · subst h; simp [lookupA]
    · simp [lookupA, h, ih, Ne.symm h]

theorem eraseA_sublist {K V : Type} [DecidableEq K] (m : List (K × V)) (k : K) :
    (eraseA m k).Sublist m := by
  induction m with
  | nil => simp [eraseA]
  | cons a rest ih =>
    obtain ⟨ka, va⟩ := a
    by_cases h : ka = k
    · simp [eraseA, h]
    · simpa [eraseA, h] using ih.cons₂ (ka, va)

theorem lookupA_eraseA_self {K V : Type} [DecidableEq K] (m : List (K × V)) (k : K)
    (hnd : (m.map Prod.fst).Nodup) : lookupA (eraseA m k) k = none := by
  induction m with
  | nil => simp [eraseA, lookupA]
  | cons a rest ih =>
    obtain ⟨ka, va⟩ := a
    simp only [List.map_cons, List.nodup_cons] at hnd
    by_cases h : ka = k
    · subst h
      simpa [eraseA, lookupA_eq_none_iff] using hnd.1
    · simp [eraseA, lookupA, h, ih hnd.2]

theorem eraseA_keys_nodup {K V : Type} [DecidableEq K] (m : List (K × V)) (k : K)
    (hnd : (m.map Prod.fst).Nodup) : ((eraseA m k).map Prod.fst).Nodup :=
  hnd.sublist ((eraseA_sublist m k).map Prod.fst)

theorem lookupA_insertA_self {K V : Type} [DecidableEq K] (m : List (K × V)) (k : K) (v : V) :
    lookupA (insertA m k v) k = some v := by
  induction m with
  | nil => simp [insertA, lookupA]
  | cons a rest ih =>
    obtain ⟨ka, va⟩ := a
    by_cases h : ka = k <;> simp [insertA, lookupA, h, ih]

theorem insertA_length_of_lookup_none {K V : Type} [DecidableEq K] (m : List (K × V))
    (k : K) (v : V) (h : lookupA m k = none) :
    (insertA m k v).length = m.length + 1 := by
  induction m with
  | nil => simp [insertA]
  | cons a rest ih =>
    obtain ⟨ka, va⟩ := a
    by_cases hk : ka = k
    · simp [lookupA, hk] at h
    · simp only [lookupA, hk, if_false] at h
      simp [insertA, hk, ih h]

theorem eraseA_length_of_lookup_some {K V : Type} [DecidableEq K] (m : List (K × V))
    (k : K) (v : V) (h : lookupA m k = some v) :
    (eraseA m k).length + 1 = m.length := by
  induction m with
  | nil => simp [lookupA] at h
  | cons a rest ih =>
    obtain ⟨ka, va⟩ := a
    by_cases hk : ka = k
    · simp [eraseA, hk]
    · simp only [lookupA, hk, if_false] at h
      simp [eraseA, hk, ih h]

theorem recordCall_log (s : ShimState) (c : DeviceCall) : (recordCall s c).log = s.log := rfl

theorem recordCall_errno (s : ShimState) (c : DeviceCall) :
    (recordCall s c).errno = s.errno := rfl

theorem recordCall_graph_cache (s : ShimState) (c : DeviceCall) :
    (recordCall s c).graph_cache = s.graph_cache := rfl

theorem recordCall_profiling_cache (s : ShimState) (c : DeviceCall) :
    (recordCall s c).profiling_cache = s.profiling_cache := rfl

theorem handleFailure_log (s : ShimState) (e : CppError) :
    (handleFailure s e).log = s.log ++ [e.msg] := by
  cases e <;> rfl

theorem handleFailure_graph_cache (s : ShimState) (e : CppError) :
    (handleFailure s e).graph_cache = s.graph_cache := by
  cases e <;> rfl

theorem handleFailure_profiling_cache (s : ShimState) (e : CppError) :
    (handleFailure s e).profiling_cache = s.profiling_cache := by
  cases e <;> rfl

theorem handleFailure_trace (s : ShimState) (e : CppError) :
    (handleFailure s e).trace = s.trace := by
  cases e <;> rfl

/-! ## Outcome predicates for the C boundary -/

/-- The try block of a C entry point completed: the returned value
satisfies the success predicate, and neither the message log nor the
process error code changed. -/
def CaughtOk {α : Type} (good : α → Prop) (s : ShimState) (r : α × ShimState) : Prop :=
  good r.1 ∧ r.2.log = s.log ∧ r.2.errno = s.errno

/-- The try block of a C entry point raised: the sentinel is returned,
and the final state is exactly the boundary translation (handleFailure)
of the raised exception, applied to an intermediate state whose log and
errno are still those at entry.  In particular the diagnostic is logged,
errno is set precisely when the exception carries a native code, and the
exception itself does not escape. -/
def CaughtFail {α : Type} (sentinel : α) (s : ShimState) (r : α × ShimState) : Prop :=
  ∃ e s1, s1.log = s.log ∧ s1.errno = s.errno ∧ r = (sentinel, handleFailure s1 e)

theorem caughtFail_log {α : Type} {sentinel : α} {s : ShimState} {r : α × ShimState}
    (h : CaughtFail sentinel s r) : ∃ m, r.2.log = s.log ++ [m] := by
  obtain ⟨e, s1, hlog, _, hr⟩ := h
  exact ⟨e.msg, by rw [hr]; simp [handleFailure_log, hlog]⟩

/-! ## Concrete fake devices and states, used as witnesses -/

/-- A fake device on which every operation succeeds. -/
def okDevice : Device where
  open_graph := fun _ _ _ => Except.ok 7
  close_graph := fun _ => Except.ok ()
  reset_graph := fun _ => Except.ok ()
  get_timestamp := fun _ => Except.ok 42
  run_graph := fun _ _ => Except.ok ()
  wait_graph_done := fun _ _ => Except.ok 0
  wait_graph := fun _ _ => Except.ok ()
  suspend_graph := fun _ => Except.ok ()
  resume_graph := fun _ => Except.ok ()
  end_graph := fun _ _ => Except.ok ()
  update_graph_rtp := fun _ _ _ => Except.ok ()
  read_graph_rtp := fun _ _ _ => Except.ok ()
  open_aie_context := fun _ => Except.ok ()
  sync_aie_bo := fun _ _ _ _ _ => Except.ok ()
  sync_aie_bo_nb := fun _ _ _ _ _ => Except.ok ()
  reset_aie := Except.ok ()
  wait_gmio := fun _ => Except.ok ()
  start_profiling := fun _ _ _ _ => Except.ok 9
  read_profiling := fun _ => Except.ok 1234
  stop_profiling := fun _ => Except.ok ()
  get_core_device := fun _ => Except.ok ()
  get_bo := fun _ => Except.ok ()
  xrt_device_open := fun i => Except.ok (i + 1)

/-- A fake device on which every device operation raises a plain
std::exception (no native error code), while the device-handle and
buffer-handle lookups still succeed. -/
def stdFailDevice : Device where
  open_graph := fun _ _ _ => Except.error (CppError.stdError "boom")
  close_graph := fun _ => Except.error (CppError.stdError "boom")
  reset_graph := fun _ => Except.error (CppError.stdError "boom")
  get_timestamp := fun _ => Except.error (CppError.stdError "boom")
  run_graph := fun _ _ => Except.error (CppError.stdError "boom")
  wait_graph_done := fun _ _ => Except.error (CppError.stdError "boom")
  wait_graph := fun _ _ => Except.error (CppError.stdError "boom")
  suspend_graph := fun _ => Except.error (CppError.stdError "boom")
  resume_graph := fun _ => Except.error (CppError.stdError "boom")
  end_graph := fun _ _ => Except.error (CppError.stdError "boom")
  update_graph_rtp := fun _ _ _ => Except.error (CppError.stdError "boom")
  read_graph_rtp := fun _ _ _ => Except.error (CppError.stdError "boom")
  open_aie_context := fun _ => Except.error (CppError.stdError "boom")
  sync_aie_bo := fun _ _ _ _ _ => Except.error (CppError.stdError "boom")
  sync_aie_bo_nb := fun _ _ _ _ _ => Except.error (CppError.stdError "boom")
  reset_aie := Except.error (CppError.stdError "boom")
  wait_gmio := fun _ => Except.error (CppError.stdError "boom")
  start_profiling := fun _ _ _ _ => Except.error (CppError.stdError "boom")
  read_profiling := fun _ => Except.error (CppError.stdError "boom")
  stop_profiling := fun _ => Except.error (CppError.stdError "boom")
  get_core_device := fun _ => Except.ok ()
  get_bo := fun _ => Except.ok ()
  xrt_device_open := fun i => Except.ok (i + 1)

/-- A fake device on which AIE context establishment fails with a
structured error, everything else succeeding. -/
def ctxFailDevice : Device :=
  { okDevice with open_aie_context := fun _ => Except.error (CppError.xrtError (-EINVAL) "ctx") }

/-- The initial shim state for a fresh process. -/
def initState : ShimState :=
  { graph_cache := [], profiling_cache := [], errno := 0, log := [], trace := [], next_ptr := 1 }

/-- A state holding one open graph: C-API handle 1 mapping to the
graph_impl with driver handle 7. -/
def gState : ShimState :=
  { graph_cache := [(1, { handle := 7 })], profiling_cache := [], errno := 0, log := [],
    trace := [], next_ptr := 2 }

/-- A state holding one started profiling object: profiling handle 9
mapping to the profiling_impl whose stored handle is 9. -/
def pState : ShimState :=
  { graph_cache := [], profiling_cache := [(9, { profiling_hdl := 9 })], errno := 0, log := [],
    trace := [], next_ptr := 1 }


/-! ## Per-entry-point boundary dichotomies

For every C-style entry point: each call either completes its try block
(CaughtOk, with the stated success value and log/errno untouched) or its
try block raises and the call returns the sentinel with the state passed
through handleFailure (CaughtFail). -/

theorem xrtGraphReset_cases (dev : Device) (ghdl : Nat) (s : ShimState) :
    CaughtOk (· = 0) s (xrtGraphReset dev ghdl s) ∨
    CaughtFail (-1) s (xrtGraphReset dev ghdl s) := by
  cases hl : lookupA s.graph_cache ghdl with
  | none =>
    have hx : xrtGraphReset dev ghdl s
        = ((-1), handleFailure s (CppError.xrtError (-EINVAL) "No such graph handle")) := by
      simp [xrtGraphReset, get_graph_hdl, hl]
    exact Or.inr ⟨_, s, rfl, rfl, hx⟩
  | some g =>
    cases hd : dev.reset_graph g.handle with
    | ok v =>
      have hx : xrtGraphReset dev ghdl s = (0, recordCall s (DeviceCall.resetGraph g.handle)) := by
        simp [xrtGraphReset, get_graph_hdl, graph_impl.reset, hl, hd]
      exact Or.inl (by rw [hx]; exact ⟨rfl, rfl, rfl⟩)
    | error e =>
      have hx : xrtGraphReset dev ghdl s
          = ((-1), handleFailure (recordCall s (DeviceCall.resetGraph g.handle)) e) := by
        simp [xrtGraphReset, get_graph_hdl, graph_impl.reset, hl, hd]
      exact Or.inr ⟨e, recordCall s (DeviceCall.resetGraph g.handle), rfl, rfl, hx⟩

theorem xrtGraphTimeStamp_cases (dev : Device) (ghdl : Nat) (s : ShimState) :
    CaughtOk (fun _ => True) s (xrtGraphTimeStamp dev ghdl s) ∨
    CaughtFail UINT64_MAX s (xrtGraphTimeStamp dev ghdl s) := by
  cases hl : lookupA s.graph_cache ghdl with
  | none =>
    have hx : xrtGraphTimeStamp dev ghdl s
        = (UINT64_MAX, handleFailure s (CppError.xrtError (-EINVAL) "No such graph handle")) := by
      simp [xrtGraphTimeStamp, get_graph_hdl, hl]
    exact Or.inr ⟨_, s, rfl, rfl, hx⟩
  | some g =>
    cases hd : dev.get_timestamp g.handle with
    | ok v =>
      have hx : xrtGraphTimeStamp dev ghdl s = (v, recordCall s (DeviceCall.getTimestamp g.handle)) := by
        simp [xrtGraphTimeStamp, get_graph_hdl, graph_impl.get_timestamp, hl, hd]
      exact Or.inl (by rw [hx]; exact ⟨trivial, rfl, rfl⟩)
    | error e =>
      have hx : xrtGraphTimeStamp dev ghdl s
          = (UINT64_MAX, handleFailure (recordCall s (DeviceCall.getTimestamp g.handle)) e) := by
        simp [xrtGraphTimeStamp, get_graph_hdl, graph_impl.get_timestamp, hl, hd]
      exact Or.inr ⟨e, recordCall s (DeviceCall.getTimestamp g.handle), rfl, rfl, hx⟩

theorem xrtGraphRun_cases (dev : Device) (ghdl : Nat) (iterations : Int) (s : ShimState) :
    CaughtOk (· = 0) s (xrtGraphRun dev ghdl iterations s) ∨
    CaughtFail (-1) s (xrtGraphRun dev ghdl iterations s) := by
  cases hl : lookupA s.graph_cache ghdl with
  | none =>
    have hx : xrtGraphRun dev ghdl iterations s
        = ((-1), handleFailure s (CppError.xrtError (-EINVAL) "No such graph handle")) := by
      simp [xrtGraphRun, get_graph_hdl, hl]
    exact Or.inr ⟨_, s, rfl, rfl, hx⟩
  | some g =>
    cases hd : dev.run_graph g.handle iterations with
    | ok v =>
      have hx : xrtGraphRun dev ghdl iterations s = (0, recordCall s (DeviceCall.runGraph g.handle iterations)) := by
        simp [xrtGraphRun, get_graph_hdl, graph_impl.run, hl, hd]
      exact Or.inl (by rw [hx]; exact ⟨rfl, rfl, rfl⟩)
    | error e =>
      have hx : xrtGraphRun dev ghdl iterations s
          = ((-1), handleFailure (recordCall s (DeviceCall.runGraph g.handle iterations)) e) := by
        simp [xrtGraphRun, get_graph_hdl, graph_impl.run, hl, hd]
      exact Or.inr ⟨e, recordCall s (DeviceCall.runGraph g.handle iterations), rfl, rfl, hx⟩

theorem xrtGraphWaitDone_cases (dev : Device) (ghdl : Nat) (timeoutMilliSec : Int) (s : ShimState) :
    CaughtOk (fun _ => True) s (xrtGraphWaitDone dev ghdl timeoutMilliSec s) ∨
    CaughtFail (-1) s (xrtGraphWaitDone dev ghdl timeoutMilliSec s) := by
  cases hl : lookupA s.graph_cache ghdl with
  | none =>
    have hx : xrtGraphWaitDone dev ghdl timeoutMilliSec s
        = ((-1), handleFailure s (CppError.xrtError (-EINVAL) "No such graph handle")) := by
      simp [xrtGraphWaitDone, get_graph_hdl, hl]
    exact Or.inr ⟨_, s, rfl, rfl, hx⟩
  | some g =>
    cases hd : dev.wait_graph_done g.handle timeoutMilliSec with
    | ok v =>
      have hx : xrtGraphWaitDone dev ghdl timeoutMilliSec s = (v, recordCall s (DeviceCall.waitGraphDone g.handle timeoutMilliSec)) := by
        simp [xrtGraphWaitDone, get_graph_hdl, graph_impl.wait_timeout, hl, hd]
      exact Or.inl (by rw [hx]; exact ⟨trivial, rfl, rfl⟩)
    | error e =>
      have hx : xrtGraphWaitDone dev ghdl timeoutMilliSec s
          = ((-1), handleFailure (recordCall s (DeviceCall.waitGraphDone g.handle timeoutMilliSec)) e) := by
        simp [xrtGraphWaitDone, get_graph_hdl, graph_impl.wait_timeout, hl, hd]
      exact Or.inr ⟨e, recordCall s (DeviceCall.waitGraphDone g.handle timeoutMilliSec), rfl, rfl, hx⟩

theorem xrtGraphWait_cases (dev : Device) (ghdl : Nat) (cycle : Nat) (s : ShimState) :
    CaughtOk (· = 0) s (xrtGraphWait dev ghdl cycle s) ∨
    CaughtFail (-1) s (xrtGraphWait dev ghdl cycle s) := by
  cases hl : lookupA s.graph_cache ghdl with
  | none =>
    have hx : xrtGraphWait dev ghdl cycle s
        = ((-1), handleFailure s (CppError.xrtError (-EINVAL) "No such graph handle")) := by
      simp [xrtGraphWait, get_graph_hdl, hl]
    exact Or.inr ⟨_, s, rfl, rfl, hx⟩
  | some g =>
    cases hd : dev.wait_graph g.handle cycle with
    | ok v =>
      have hx : xrtGraphWait dev ghdl cycle s = (0, recordCall s (DeviceCall.waitGraph g.handle cycle)) := by
        simp [xrtGraphWait, get_graph_hdl, graph_impl.wait_cycle, hl, hd]
      exact Or.inl (by rw [hx]; exact ⟨rfl, rfl, rfl⟩)
    | error e =>
      have hx : xrtGraphWait dev ghdl cycle s
          = ((-1), handleFailure (recordCall s (DeviceCall.waitGraph g.handle cycle)) e) := by
        simp [xrtGraphWait, get_graph_hdl, graph_impl.wait_cycle, hl, hd]
      exact Or.inr ⟨e, recordCall s (DeviceCall.waitGraph g.handle cycle), rfl, rfl, hx⟩

theorem xrtGraphSuspend_cases (dev : Device) (ghdl : Nat) (s : ShimState) :
    CaughtOk (· = 0) s (xrtGraphSuspend dev ghdl s) ∨
    CaughtFail (-1) s (xrtGraphSuspend dev ghdl s) := by
  cases hl : lookupA s.graph_cache ghdl with
  | none =>
    have hx : xrtGraphSuspend dev ghdl s
        = ((-1), handleFailure s (CppError.xrtError (-EINVAL) "No such graph handle")) := by
      simp [xrtGraphSuspend, get_graph_hdl, hl]
    exact Or.inr ⟨_, s, rfl, rfl, hx⟩
  | some g =>
    cases hd : dev.suspend_graph g.handle with
    | ok v =>
      have hx : xrtGraphSuspend dev ghdl s = (0, recordCall s (DeviceCall.suspendGraph g.handle)) := by
        simp [xrtGraphSuspend, get_graph_hdl, graph_impl.suspend, hl, hd]
      exact Or.inl (by rw [hx]; exact ⟨rfl, rfl, rfl⟩)
    | error e =>
      have hx : xrtGraphSuspend dev ghdl s
          = ((-1), handleFailure (recordCall s (DeviceCall.suspendGraph g.handle)) e) := by
        simp [xrtGraphSuspend, get_graph_hdl, graph_impl.suspend, hl, hd]
      exact Or.inr ⟨e, recordCall s (DeviceCall.suspendGraph g.handle), rfl, rfl, hx⟩

theorem xrtGraphResume_cases (dev : Device) (ghdl : Nat) (s : ShimState) :
    CaughtOk (· = 0) s (xrtGraphResume dev ghdl s) ∨
    CaughtFail (-1) s (xrtGraphResume dev ghdl s) := by
  cases hl : lookupA s.graph_cache ghdl with
  | none =>
    have hx : xrtGraphResume dev ghdl s
        = ((-1), handleFailure s (CppError.xrtError (-EINVAL) "No such graph handle")) := by
      simp [xrtGraphResume, get_graph_hdl, hl]
    exact Or.inr ⟨_, s, rfl, rfl, hx⟩
  | some g =>
    cases hd : dev.resume_graph g.handle with
    | ok v =>
      have hx : xrtGraphResume dev ghdl s = (0, recordCall s (DeviceCall.resumeGraph g.handle)) := by
        simp [xrtGraphResume, get_graph_hdl, graph_impl.resume, hl, hd]
      exact Or.inl (by rw [hx]; exact ⟨rfl, rfl, rfl⟩)
    | error e =>
      have hx : xrtGraphResume dev ghdl s
          = ((-1), handleFailure (recordCall s (DeviceCall.resumeGraph g.handle)) e) := by
        simp [xrtGraphResume, get_graph_hdl, graph_impl.resume, hl, hd]
      exact Or.inr ⟨e, recordCall s (DeviceCall.resumeGraph g.handle), rfl, rfl, hx⟩

theorem xrtGraphEnd_cases (dev : Device) (ghdl : Nat) (cycle : Nat) (s : ShimState) :
    CaughtOk (· = 0) s (xrtGraphEnd dev ghdl cycle s) ∨
    CaughtFail (-1) s (xrtGraphEnd dev ghdl cycle s) := by
  cases hl : lookupA s.graph_cache ghdl with
  | none =>
    have hx : xrtGraphEnd dev ghdl cycle s
        = ((-1), handleFailure s (CppError.xrtError (-EINVAL) "No such graph handle")) := by
      simp [xrtGraphEnd, get_graph_hdl, hl]
    exact Or.inr ⟨_, s, rfl, rfl, hx⟩
  | some g =>
    cases hd : dev.end_graph g.handle cycle with
    | ok v =>
      have hx : xrtGraphEnd dev ghdl cycle s = (0, recordCall s (DeviceCall.endGraph g.handle cycle)) := by
        simp [xrtGraphEnd, get_graph_hdl, graph_impl.end_graph, hl, hd]
      exact Or.inl (by rw [hx]; exact ⟨rfl, rfl, rfl⟩)
    | error e =>
      have hx : xrtGraphEnd dev ghdl cycle s
          = ((-1), handleFailure (recordCall s (DeviceCall.endGraph g.handle cycle)) e) := by
        simp [xrtGraphEnd, get_graph_hdl, graph_impl.end_graph, hl, hd]
      exact Or.inr ⟨e, recordCall s (DeviceCall.endGraph g.handle cycle), rfl, rfl, hx⟩

theorem xrtGraphUpdateRTP_cases (dev : Device) (ghdl : Nat) (port : String) (size : Nat) (s : ShimState) :
    CaughtOk (· = 0) s (xrtGraphUpdateRTP dev ghdl port size s) ∨
    CaughtFail (-1) s (xrtGraphUpdateRTP dev ghdl port size s) := by
  cases hl : lookupA s.graph_cache ghdl with
  | none =>
    have hx : xrtGraphUpdateRTP dev ghdl port size s
        = ((-1), handleFailure s (CppError.xrtError (-EINVAL) "No such graph handle")) := by
      simp [xrtGraphUpdateRTP, get_graph_hdl, hl]
    exact Or.inr ⟨_, s, rfl, rfl, hx⟩
  | some g =>
    cases hd : dev.update_graph_rtp g.handle port size with
    | ok v =>
      have hx : xrtGraphUpdateRTP dev ghdl port size s = (0, recordCall s (DeviceCall.updateGraphRtp g.handle port size)) := by
        simp [xrtGraphUpdateRTP, get_graph_hdl, graph_impl.update_rtp, hl, hd]
      exact Or.inl (by rw [hx]; exact ⟨rfl, rfl, rfl⟩)
    | error e =>
      have hx : xrtGraphUpdateRTP dev ghdl port size s
          = ((-1), handleFailure (recordCall s (DeviceCall.updateGraphRtp g.handle port size)) e) := by
        simp [xrtGraphUpdateRTP, get_graph_hdl, graph_impl.update_rtp, hl, hd]
      exact Or.inr ⟨e, recordCall s (DeviceCall.updateGraphRtp g.handle port size), rfl, rfl, hx⟩

theorem xrtGraphReadRTP_cases (dev : Device) (ghdl : Nat) (port : String) (size : Nat) (s : ShimState) :
    CaughtOk (· = 0) s (xrtGraphReadRTP dev ghdl port size s) ∨
    CaughtFail (-1) s (xrtGraphReadRTP dev ghdl port size s) := by
  cases hl : lookupA s.graph_cache ghdl with
  | none =>
    have hx : xrtGraphReadRTP dev ghdl port size s
        = ((-1), handleFailure s (CppError.xrtError (-EINVAL) "No such graph handle")) := by
      simp [xrtGraphReadRTP, get_graph_hdl, hl]
    exact Or.inr ⟨_, s, rfl, rfl, hx⟩
  | some g =>
    cases hd : dev.read_graph_rtp g.handle port size with
    | ok v =>
      have hx : xrtGraphReadRTP dev ghdl port size s = (0, recordCall s (DeviceCall.readGraphRtp g.handle port size)) := by
        simp [xrtGraphReadRTP, get_graph_hdl, graph_impl.read_rtp, hl, hd]
      exact Or.inl (by rw [hx]; exact ⟨rfl, rfl, rfl⟩)
    | error e =>
      have hx : xrtGraphReadRTP dev ghdl port size s
          = ((-1), handleFailure (recordCall s (DeviceCall.readGraphRtp g.handle port size)) e) := by
        simp [xrtGraphReadRTP, get_graph_hdl, graph_impl.read_rtp, hl, hd]
      exact Or.inr ⟨e, recordCall s (DeviceCall.readGraphRtp g.handle port size), rfl, rfl, hx⟩

theorem xrtGraphOpen_cases (dev : Device) (dhdl uuid : Nat) (name : String) (s : ShimState) :
    CaughtOk (· = s.next_ptr) s (xrtGraphOpen dev dhdl uuid name s) ∨
    CaughtFail XRT_NULL_HANDLE s (xrtGraphOpen dev dhdl uuid name s) := by
  cases hc : dev.get_core_device dhdl with
  | error e =>
    have hx : xrtGraphOpen dev dhdl uuid name s = (XRT_NULL_HANDLE, handleFailure s e) := by
      simp [xrtGraphOpen, open_graph_c, hc]
    exact Or.inr ⟨e, s, rfl, rfl, hx⟩
  | ok u =>
    cases ho : dev.open_graph uuid name AccessMode.primary with
    | error e =>
      have hx : xrtGraphOpen dev dhdl uuid name s
          = (XRT_NULL_HANDLE, handleFailure (recordCall s (DeviceCall.openGraph uuid name AccessMode.primary)) e) := by
        simp [xrtGraphOpen, open_graph_c, hc, ho]
      exact Or.inr ⟨e, recordCall s (DeviceCall.openGraph uuid name AccessMode.primary), rfl, rfl, hx⟩
    | ok h =>
      have hx : xrtGraphOpen dev dhdl uuid name s
          = (s.next_ptr,
             let s1 := recordCall s (DeviceCall.openGraph uuid name AccessMode.primary)
             let s2 := ShimState.mk (insertA s1.graph_cache s.next_ptr (graph_impl.mk h))
               s1.profiling_cache s1.errno s1.log s1.trace (s.next_ptr + 1)
             s2) := by
        simp [xrtGraphOpen, open_graph_c, hc, ho, recordCall]
      exact Or.inl (by rw [hx]; exact ⟨rfl, rfl, rfl⟩)

theorem xrtGraphOpenExclusive_cases (dev : Device) (dhdl uuid : Nat) (name : String) (s : ShimState) :
    CaughtOk (· = s.next_ptr) s (xrtGraphOpenExclusive dev dhdl uuid name s) ∨
    CaughtFail XRT_NULL_HANDLE s (xrtGraphOpenExclusive dev dhdl uuid name s) := by
  cases hc : dev.get_core_device dhdl with
  | error e =>
    have hx : xrtGraphOpenExclusive dev dhdl uuid name s = (XRT_NULL_HANDLE, handleFailure s e) := by
      simp [xrtGraphOpenExclusive, open_graph_c, hc]
    exact Or.inr ⟨e, s, rfl, rfl, hx⟩
  | ok u =>
    cases ho : dev.open_graph uuid name AccessMode.exclusive with
    | error e =>
      have hx : xrtGraphOpenExclusive dev dhdl uuid name s
          = (XRT_NULL_HANDLE, handleFailure (recordCall s (DeviceCall.openGraph uuid name AccessMode.exclusive)) e) := by
        simp [xrtGraphOpenExclusive, open_graph_c, hc, ho]
      exact Or.inr ⟨e, recordCall s (DeviceCall.openGraph uuid name AccessMode.exclusive), rfl, rfl, hx⟩
    | ok h =>
      have hx : xrtGraphOpenExclusive dev dhdl uuid name s
          = (s.next_ptr,
             let s1 := recordCall s (DeviceCall.openGraph uuid name AccessMode.exclusive)
             let s2 := ShimState.mk (insertA s1.graph_cache s.next_ptr (graph_impl.mk h))
               s1.profiling_cache s1.errno s1.log s1.trace (s.next_ptr + 1)
             s2) := by
        simp [xrtGraphOpenExclusive, open_graph_c, hc, ho, recordCall]
      exact Or.inl (by rw [hx]; exact ⟨rfl, rfl, rfl⟩)

theorem xrtGraphOpenShared_cases (dev : Device) (dhdl uuid : Nat) (name : String) (s : ShimState) :
    CaughtOk (· = s.next_ptr) s (xrtGraphOpenShared dev dhdl uuid name s) ∨
    CaughtFail XRT_NULL_HANDLE s (xrtGraphOpenShared dev dhdl uuid name s) := by
  cases hc : dev.get_core_device dhdl with
  | error e =>
    have hx : xrtGraphOpenShared dev dhdl uuid name s = (XRT_NULL_HANDLE, handleFailure s e) := by
      simp [xrtGraphOpenShared, open_graph_c, hc]
    exact Or.inr ⟨e, s, rfl, rfl, hx⟩
  | ok u =>
    cases ho : dev.open_graph uuid name AccessMode.shared with
    | error e =>
      have hx : xrtGraphOpenShared dev dhdl uuid name s
          = (XRT_NULL_HANDLE, handleFailure (recordCall s (DeviceCall.openGraph uuid name AccessMode.shared)) e) := by
        simp [xrtGraphOpenShared, open_graph_c, hc, ho]
      exact Or.inr ⟨e, recordCall s (DeviceCall.openGraph uuid name AccessMode.shared), rfl, rfl, hx⟩
    | ok h =>
      have hx : xrtGraphOpenShared dev dhdl uuid name s
          = (s.next_ptr,
             let s1 := recordCall s (DeviceCall.openGraph uuid name AccessMode.shared)
             let s2 := ShimState.mk (insertA s1.graph_cache s.next_ptr (graph_impl.mk h))
               s1.profiling_cache s1.errno s1.log s1.trace (s.next_ptr + 1)
             s2) := by
        simp [xrtGraphOpenShared, open_graph_c, hc, ho, recordCall]
      exact Or.inl (by rw [hx]; exact ⟨rfl, rfl, rfl⟩)

theorem xrtAIEDeviceOpen_cases (dev : Device) (index : Nat) (s : ShimState) :
    CaughtOk (fun v => dev.xrt_device_open index = Except.ok v) s (xrtAIEDeviceOpen dev index s) ∨
    CaughtFail XRT_NULL_HANDLE s (xrtAIEDeviceOpen dev index s) := by
  cases ho : dev.xrt_device_open index with
  | error e =>
    have hx : xrtAIEDeviceOpen dev index s
        = (XRT_NULL_HANDLE, handleFailure (recordCall s (DeviceCall.deviceOpen index)) e) := by
      simp [xrtAIEDeviceOpen, xrtDeviceOpen, ho]
    exact Or.inr ⟨e, recordCall s (DeviceCall.deviceOpen index), rfl, rfl, hx⟩
  | ok h =>
    cases hc : dev.get_core_device h with
    | error e =>
      have hx : xrtAIEDeviceOpen dev index s
          = (XRT_NULL_HANDLE, handleFailure (recordCall s (DeviceCall.deviceOpen index)) e) := by
        simp [xrtAIEDeviceOpen, xrtDeviceOpen, open_aie_context, ho, hc]
      exact Or.inr ⟨e, recordCall s (DeviceCall.deviceOpen index), rfl, rfl, hx⟩
    | ok u =>
      cases ha : dev.open_aie_context AieAccessMode.primary with
      | error e =>
        have hx : xrtAIEDeviceOpen dev index s
            = (XRT_NULL_HANDLE, handleFailure
                (recordCall (recordCall s (DeviceCall.deviceOpen index))
                  (DeviceCall.openAieContext AieAccessMode.primary)) e) := by
          simp [xrtAIEDeviceOpen, xrtDeviceOpen, open_aie_context, ho, hc, ha]
        exact Or.inr ⟨e, recordCall (recordCall s (DeviceCall.deviceOpen index))
          (DeviceCall.openAieContext AieAccessMode.primary), rfl, rfl, hx⟩
      | ok u2 =>
        have hx : xrtAIEDeviceOpen dev index s
            = (h, recordCall (recordCall s (DeviceCall.deviceOpen index))
                (DeviceCall.openAieContext AieAccessMode.primary)) := by
          simp [xrtAIEDeviceOpen, xrtDeviceOpen, open_aie_context, ho, hc, ha]
        exact Or.inl (by rw [hx]; exact ⟨rfl, rfl, rfl⟩)

theorem xrtAIEDeviceOpenExclusive_cases (dev : Device) (index : Nat) (s : ShimState) :
    CaughtOk (fun v => dev.xrt_device_open index = Except.ok v) s (xrtAIEDeviceOpenExclusive dev index s) ∨
    CaughtFail XRT_NULL_HANDLE s (xrtAIEDeviceOpenExclusive dev index s) := by
  cases ho : dev.xrt_device_open index with
  | error e =>
    have hx : xrtAIEDeviceOpenExclusive dev index s
        = (XRT_NULL_HANDLE, handleFailure (recordCall s (DeviceCall.deviceOpen index)) e) := by
      simp [xrtAIEDeviceOpenExclusive, xrtDeviceOpen, ho]
    exact Or.inr ⟨e, recordCall s (DeviceCall.deviceOpen index), rfl, rfl, hx⟩
  | ok h =>
    cases hc : dev.get_core_device h with
    | error e =>
      have hx : xrtAIEDeviceOpenExclusive dev index s
          = (XRT_NULL_HANDLE, handleFailure (recordCall s (DeviceCall.deviceOpen index)) e) := by
        simp [xrtAIEDeviceOpenExclusive, xrtDeviceOpen, open_aie_context, ho, hc]
      exact Or.inr ⟨e, recordCall s (DeviceCall.deviceOpen index), rfl, rfl, hx⟩
    | ok u =>
      cases ha : dev.open_aie_context AieAccessMode.exclusive with
      | error e =>
        have hx : xrtAIEDeviceOpenExclusive dev index s
            = (XRT_NULL_HANDLE, handleFailure
                (recordCall (recordCall s (DeviceCall.deviceOpen index))
                  (DeviceCall.openAieContext AieAccessMode.exclusive)) e) := by
          simp [xrtAIEDeviceOpenExclusive, xrtDeviceOpen, open_aie_context, ho, hc, ha]
        exact Or.inr ⟨e, recordCall (recordCall s (DeviceCall.deviceOpen index))
          (DeviceCall.openAieContext AieAccessMode.exclusive), rfl, rfl, hx⟩
      | ok u2 =>
        have hx : xrtAIEDeviceOpenExclusive dev index s
            = (h, recordCall (recordCall s (DeviceCall.deviceOpen index))
                (DeviceCall.openAieContext AieAccessMode.exclusive)) := by
          simp [xrtAIEDeviceOpenExclusive, xrtDeviceOpen, open_aie_context, ho, hc, ha]
        exact Or.inl (by rw [hx]; exact ⟨rfl, rfl, rfl⟩)

theorem xrtAIEDeviceOpenShared_cases (dev : Device) (index : Nat) (s : ShimState) :
    CaughtOk (fun v => dev.xrt_device_open index = Except.ok v) s (xrtAIEDeviceOpenShared dev index s) ∨
    CaughtFail XRT_NULL_HANDLE s (xrtAIEDeviceOpenShared dev index s) := by
  cases ho : dev.xrt_device_open index with
  | error e =>
    have hx : xrtAIEDeviceOpenShared dev index s
        = (XRT_NULL_HANDLE, handleFailure (recordCall s (DeviceCall.deviceOpen index)) e) := by
      simp [xrtAIEDeviceOpenShared, xrtDeviceOpen, ho]
    exact Or.inr ⟨e, recordCall s (DeviceCall.deviceOpen index), rfl, rfl, hx⟩
  | ok h =>
    cases hc : dev.get_core_device h with
    | error e =>
      have hx : xrtAIEDeviceOpenShared dev index s
          = (XRT_NULL_HANDLE, handleFailure (recordCall s (DeviceCall.deviceOpen index)) e) := by
        simp [xrtAIEDeviceOpenShared, xrtDeviceOpen, open_aie_context, ho, hc]
      exact Or.inr ⟨e, recordCall s (DeviceCall.deviceOpen index), rfl, rfl, hx⟩
    | ok u =>
      cases ha : dev.open_aie_context AieAccessMode.shared with
      | error e =>
        have hx : xrtAIEDeviceOpenShared dev index s
            = (XRT_NULL_HANDLE, handleFailure
                (recordCall (recordCall s (DeviceCall.deviceOpen index))
                  (DeviceCall.openAieContext AieAccessMode.shared)) e) := by
          simp [xrtAIEDeviceOpenShared, xrtDeviceOpen, open_aie_context, ho, hc, ha]
        exact Or.inr ⟨e, recordCall (recordCall s (DeviceCall.deviceOpen index))
          (DeviceCall.openAieContext AieAccessMode.shared), rfl, rfl, hx⟩
      | ok u2 =>
        have hx : xrtAIEDeviceOpenShared dev index s
            = (h, recordCall (recordCall s (DeviceCall.deviceOpen index))
                (DeviceCall.openAieContext AieAccessMode.shared)) := by
          simp [xrtAIEDeviceOpenShared, xrtDeviceOpen, open_aie_context, ho, hc, ha]
        exact Or.inl (by rw [hx]; exact ⟨rfl, rfl, rfl⟩)

theorem xrtSyncBOAIE_cases (dev : Device) (dhdl bohdl : Nat) (gmio : String) (dir : Nat)
    (size offset : Nat) (s : ShimState) :
    CaughtOk (· = 0) s (xrtSyncBOAIE dev dhdl bohdl gmio dir size offset s) ∨
    CaughtFail (-1) s (xrtSyncBOAIE dev dhdl bohdl gmio dir size offset s) := by
  cases hc : dev.get_core_device dhdl with
  | error e =>
    have hx : xrtSyncBOAIE dev dhdl bohdl gmio dir size offset s = (-1, handleFailure s e) := by
      simp [xrtSyncBOAIE, sync_aie_bo, hc]
    exact Or.inr ⟨e, s, rfl, rfl, hx⟩
  | ok u =>
    cases hb : dev.get_bo bohdl with
    | error e =>
      have hx : xrtSyncBOAIE dev dhdl bohdl gmio dir size offset s = (-1, handleFailure s e) := by
        simp [xrtSyncBOAIE, sync_aie_bo, hc, hb]
      exact Or.inr ⟨e, s, rfl, rfl, hx⟩
    | ok u2 =>
      cases hd : dev.sync_aie_bo bohdl gmio dir size offset with
      | ok v =>
        have hx : xrtSyncBOAIE dev dhdl bohdl gmio dir size offset s = (0, recordCall s (DeviceCall.syncAieBo bohdl gmio dir size offset)) := by
          simp [xrtSyncBOAIE, sync_aie_bo, hc, hb, hd]
        exact Or.inl (by rw [hx]; exact ⟨rfl, rfl, rfl⟩)
      | error e =>
        have hx : xrtSyncBOAIE dev dhdl bohdl gmio dir size offset s
            = (-1, handleFailure (recordCall s (DeviceCall.syncAieBo bohdl gmio dir size offset)) e) := by
          simp [xrtSyncBOAIE, sync_aie_bo, hc, hb, hd]
        exact Or.inr ⟨e, recordCall s (DeviceCall.syncAieBo bohdl gmio dir size offset), rfl, rfl, hx⟩

theorem xrtSyncBOAIENB_cases (dev : Device) (dhdl bohdl : Nat) (gmio : String) (dir : Nat)
    (size offset : Nat) (s : ShimState) :
    CaughtOk (· = 0) s (xrtSyncBOAIENB dev dhdl bohdl gmio dir size offset s) ∨
    CaughtFail (-1) s (xrtSyncBOAIENB dev dhdl bohdl gmio dir size offset s) := by
  cases hc : dev.get_core_device dhdl with
  | error e =>
    have hx : xrtSyncBOAIENB dev dhdl bohdl gmio dir size offset s = (-1, handleFailure s e) := by
      simp [xrtSyncBOAIENB, sync_aie_bo_nb, hc]
    exact Or.inr ⟨e, s, rfl, rfl, hx⟩
  | ok u =>
    cases hb : dev.get_bo bohdl with
    | error e =>
      have hx : xrtSyncBOAIENB dev dhdl bohdl gmio dir size offset s = (-1, handleFailure s e) := by
        simp [xrtSyncBOAIENB, sync_aie_bo_nb, hc, hb]
      exact Or.inr ⟨e, s, rfl, rfl, hx⟩
    | ok u2 =>
      cases hd : dev.sync_aie_bo_nb bohdl gmio dir size offset with
      | ok v =>
        have hx : xrtSyncBOAIENB dev dhdl bohdl gmio dir size offset s = (0, recordCall s (DeviceCall.syncAieBoNb bohdl gmio dir size offset)) := by
          simp [xrtSyncBOAIENB, sync_aie_bo_nb, hc, hb, hd]
        exact Or.inl (by rw [hx]; exact ⟨rfl, rfl, rfl⟩)
      | error e =>
        have hx : xrtSyncBOAIENB dev dhdl bohdl gmio dir size offset s
            = (-1, handleFailure (recordCall s (DeviceCall.syncAieBoNb bohdl gmio dir size offset)) e) := by
          simp [xrtSyncBOAIENB, sync_aie_bo_nb, hc, hb, hd]
        exact Or.inr ⟨e, recordCall s (DeviceCall.syncAieBoNb bohdl gmio dir size offset), rfl, rfl, hx⟩

theorem xrtAIESyncBO_cases (dev : Device) (dhdl bohdl : Nat) (gmio : String) (dir : Nat)
    (size offset : Nat) (s : ShimState) :
    CaughtOk (· = 0) s (xrtAIESyncBO dev dhdl bohdl gmio dir size offset s) ∨
    CaughtFail (-1) s (xrtAIESyncBO dev dhdl bohdl gmio dir size offset s) :=
  xrtSyncBOAIE_cases dev dhdl bohdl gmio dir size offset s

theorem xrtResetAIEArray_cases (dev : Device) (dhdl : Nat) (s : ShimState) :
    CaughtOk (· = 0) s (xrtResetAIEArray dev dhdl s) ∨
    CaughtFail (-1) s (xrtResetAIEArray dev dhdl s) := by
  cases hc : dev.get_core_device dhdl with
  | error e =>
    have hx : xrtResetAIEArray dev dhdl s = (-1, handleFailure s e) := by
      simp [xrtResetAIEArray, reset_aie, hc]
    exact Or.inr ⟨e, s, rfl, rfl, hx⟩
  | ok u =>
    cases hd : dev.reset_aie with
    | ok v =>
      have hx : xrtResetAIEArray dev dhdl s = (0, recordCall s DeviceCall.resetAie) := by
        simp [xrtResetAIEArray, reset_aie, hc, hd]
      exact Or.inl (by rw [hx]; exact ⟨rfl, rfl, rfl⟩)
    | error e =>
      have hx : xrtResetAIEArray dev dhdl s
          = (-1, handleFailure (recordCall s DeviceCall.resetAie) e) := by
        simp [xrtResetAIEArray, reset_aie, hc, hd]
      exact Or.inr ⟨e, recordCall s DeviceCall.resetAie, rfl, rfl, hx⟩

theorem xrtAIEResetArray_cases (dev : Device) (dhdl : Nat) (s : ShimState) :
    CaughtOk (· = 0) s (xrtAIEResetArray dev dhdl s) ∨
    CaughtFail (-1) s (xrtAIEResetArray dev dhdl s) :=
  xrtResetAIEArray_cases dev dhdl s

theorem xrtGMIOWait_cases (dev : Device) (dhdl : Nat) (gmio : String) (s : ShimState) :
    CaughtOk (· = 0) s (xrtGMIOWait dev dhdl gmio s) ∨
    CaughtFail (-1) s (xrtGMIOWait dev dhdl gmio s) := by
  cases hc : dev.get_core_device dhdl with
  | error e =>
    have hx : xrtGMIOWait dev dhdl gmio s = (-1, handleFailure s e) := by
      simp [xrtGMIOWait, wait_gmio, hc]
    exact Or.inr ⟨e, s, rfl, rfl, hx⟩
  | ok u =>
    cases hd : dev.wait_gmio gmio with
    | ok v =>
      have hx : xrtGMIOWait dev dhdl gmio s = (0, recordCall s (DeviceCall.waitGmio gmio)) := by
        simp [xrtGMIOWait, wait_gmio, hc, hd]
      exact Or.inl (by rw [hx]; exact ⟨rfl, rfl, rfl⟩)
    | error e =>
      have hx : xrtGMIOWait dev dhdl gmio s
          = (-1, handleFailure (recordCall s (DeviceCall.waitGmio gmio)) e) := by
        simp [xrtGMIOWait, wait_gmio, hc, hd]
      exact Or.inr ⟨e, recordCall s (DeviceCall.waitGmio gmio), rfl, rfl, hx⟩

theorem xrtGraphClose_cases (dev : Device) (ghdl : Nat) (s : ShimState) :
    CaughtOk (fun _ => True) s (xrtGraphClose dev ghdl s) ∨
    CaughtFail () s (xrtGraphClose dev ghdl s) := by
  cases hl : lookupA s.graph_cache ghdl with
  | none =>
    have hx : xrtGraphClose dev ghdl s
        = ((), handleFailure s (CppError.stdError "Unexpected internal error")) := by
      simp [xrtGraphClose, close_graph, hl]
    exact Or.inr ⟨CppError.stdError "Unexpected internal error", s, rfl, rfl, hx⟩
  | some g =>
    refine Or.inl ⟨trivial, ?_, ?_⟩ <;>
      simp [xrtGraphClose, close_graph, graph_impl.destruct, recordCall, hl]

theorem xrtAIEReadProfiling_cases (dev : Device) (pHandle : Int) (s : ShimState) :
    CaughtOk (fun _ => True) s (xrtAIEReadProfiling dev pHandle s) ∨
    CaughtFail UINT64_MAX s (xrtAIEReadProfiling dev pHandle s) := by
  cases hl : lookupA s.profiling_cache pHandle with
  | none =>
    have hx : xrtAIEReadProfiling dev pHandle s
        = (UINT64_MAX, handleFailure s (CppError.xrtError (-EINVAL) "No such profiling handle")) := by
      simp [xrtAIEReadProfiling, hl]
    exact Or.inr ⟨_, s, rfl, rfl, hx⟩
  | some p =>
    by_cases hp : p.profiling_hdl = invalid_handle
    · have hx : xrtAIEReadProfiling dev pHandle s
          = (UINT64_MAX, handleFailure s (CppError.xrtError (-EINVAL) "Not a valid profiling handle")) := by
        simp [xrtAIEReadProfiling, profiling_impl.read_profiling, hl, hp]
      exact Or.inr ⟨_, s, rfl, rfl, hx⟩
    · cases hd : dev.read_profiling p.profiling_hdl with
      | ok v =>
        have hx : xrtAIEReadProfiling dev pHandle s
            = (v, recordCall s (DeviceCall.readProfiling p.profiling_hdl)) := by
          simp [xrtAIEReadProfiling, profiling_impl.read_profiling, hl, hp, hd]
        exact Or.inl (by rw [hx]; exact ⟨trivial, rfl, rfl⟩)
      | error e =>
        have hx : xrtAIEReadProfiling dev pHandle s
            = (UINT64_MAX, handleFailure (recordCall s (DeviceCall.readProfiling p.profiling_hdl)) e) := by
          simp [xrtAIEReadProfiling, profiling_impl.read_profiling, hl, hp, hd]
        exact Or.inr ⟨e, recordCall s (DeviceCall.readProfiling p.profiling_hdl), rfl, rfl, hx⟩

theorem xrtAIEStopProfiling_cases (dev : Device) (pHandle : Int) (s : ShimState) :
    CaughtOk (fun _ => True) s (xrtAIEStopProfiling dev pHandle s) ∨
    CaughtFail () s (xrtAIEStopProfiling dev pHandle s) := by
  cases hl : lookupA s.profiling_cache pHandle with
  | none =>
    have hx : xrtAIEStopProfiling dev pHandle s
        = ((), handleFailure s (CppError.xrtError (-EINVAL) "No such profiling handle")) := by
      simp [xrtAIEStopProfiling, hl]
    exact Or.inr ⟨_, s, rfl, rfl, hx⟩
  | some p =>
    by_cases hp : p.profiling_hdl = invalid_handle
    · have hx : xrtAIEStopProfiling dev pHandle s
          = ((), handleFailure s (CppError.xrtError (-EINVAL) "Not a valid profiling handle")) := by
        simp [xrtAIEStopProfiling, profiling_impl.stop_profiling, hl, hp]
      exact Or.inr ⟨_, s, rfl, rfl, hx⟩
    · cases hd : dev.stop_profiling p.profiling_hdl with
      | ok v =>
        refine Or.inl ⟨trivial, ?_, ?_⟩ <;>
          simp [xrtAIEStopProfiling, profiling_impl.stop_profiling, profiling_impl.destruct,
            recordCall, hl, hp, hd]
      | error e =>
        have hx : xrtAIEStopProfiling dev pHandle s
            = ((), handleFailure (recordCall s (DeviceCall.stopProfiling p.profiling_hdl)) e) := by
          simp [xrtAIEStopProfiling, profiling_impl.stop_profiling, hl, hp, hd]
        exact Or.inr ⟨e, recordCall s (DeviceCall.stopProfiling p.profiling_hdl), rfl, rfl, hx⟩

theorem xrtAIEStartProfiling_cases (dev : Device) (dhdl : Nat) (option : Int)
    (port1 port2 : String) (value : Nat) (s : ShimState) :
    CaughtOk (fun v => v ≠ invalid_handle) s
      (xrtAIEStartProfiling dev dhdl option port1 port2 value s) ∨
    CaughtFail (-1) s (xrtAIEStartProfiling dev dhdl option port1 port2 value s) := by
  cases hc : dev.get_core_device dhdl with
  | error e =>
    have hx : xrtAIEStartProfiling dev dhdl option port1 port2 value s
        = (-1, handleFailure s e) := by
      simp [xrtAIEStartProfiling, create_profiling_event, hc]
    exact Or.inr ⟨e, s, rfl, rfl, hx⟩
  | ok u =>
    by_cases hopt : option < 0 ∨ 3 < option
    · refine Or.inr ⟨CppError.xrtError (-EINVAL) "Not a valid profiling option",
        profiling_impl.destruct dev (profiling_impl.mk invalid_handle) s, rfl, rfl, ?_⟩
      simp [xrtAIEStartProfiling, create_profiling_event, profiling_impl.destruct, recordCall,
        hc, hopt]
    · cases hd : dev.start_profiling option port1 port2 value with
      | error e =>
        refine Or.inr ⟨e, profiling_impl.destruct dev (profiling_impl.mk invalid_handle)
          (recordCall s (DeviceCall.startProfiling option port1 port2 value)), rfl, rfl, ?_⟩
        simp [xrtAIEStartProfiling, create_profiling_event, profiling_impl.start_profiling,
          profiling_impl.destruct, recordCall, hc, hopt, hd]
      | ok h =>
        by_cases hh : h = invalid_handle
        · refine Or.inr ⟨CppError.xrtError (-EINVAL) "Not a valid profiling handle",
            profiling_impl.destruct dev (profiling_impl.mk h)
              (recordCall s (DeviceCall.startProfiling option port1 port2 value)), rfl, rfl, ?_⟩
          simp [xrtAIEStartProfiling, create_profiling_event, profiling_impl.start_profiling,
            profiling_impl.destruct, recordCall, hc, hopt, hd, hh]
        · refine Or.inl ⟨?_, ?_, ?_⟩ <;>
            cases hold : lookupA s.profiling_cache h <;>
            simp [xrtAIEStartProfiling, create_profiling_event, profiling_impl.start_profiling,
              profiling_impl.destruct, recordCall, hc, hopt, hd, hh, hold]


/-! ## Registry frame lemmas

Every entry point other than graph open/close and profiling start/stop
leaves both handle registries unchanged, on every path. -/

/-- The pair of handle registries of a state. -/
def caches (s : ShimState) : List (Nat × graph_impl) × List (Int × profiling_impl) :=
  (s.graph_cache, s.profiling_cache)

theorem handleFailure_caches (s : ShimState) (e : CppError) :
    caches (handleFailure s e) = caches s := by
  cases e <;> rfl

theorem recordCall_caches (s : ShimState) (c : DeviceCall) :
    caches (recordCall s c) = caches s := rfl

theorem xrtGraphReset_frame (dev : Device) (ghdl : Nat) (s : ShimState) :
    caches (xrtGraphReset dev ghdl s).2 = caches s := by
  cases hl : lookupA s.graph_cache ghdl with
  | none => simp [xrtGraphReset, get_graph_hdl, hl, handleFailure_caches]
  | some g =>
    cases hd : dev.reset_graph g.handle with
    | ok v => simp [xrtGraphReset, get_graph_hdl, graph_impl.reset, hl, hd, caches, recordCall]
    | error e =>
      have h1 : (xrtGraphReset dev ghdl s).2
          = handleFailure (recordCall s (DeviceCall.resetGraph g.handle)) e := by
        simp [xrtGraphReset, get_graph_hdl, graph_impl.reset, hl, hd]
      rw [h1, handleFailure_caches, recordCall_caches]

theorem xrtGraphTimeStamp_frame (dev : Device) (ghdl : Nat) (s : ShimState) :
    caches (xrtGraphTimeStamp dev ghdl s).2 = caches s := by
  cases hl : lookupA s.graph_cache ghdl with
  | none => simp [xrtGraphTimeStamp, get_graph_hdl, hl, handleFailure_caches]
  | some g =>
    cases hd : dev.get_timestamp g.handle with
    | ok v => simp [xrtGraphTimeStamp, get_graph_hdl, graph_impl.get_timestamp, hl, hd, caches, recordCall]
    | error e =>
      have h1 : (xrtGraphTimeStamp dev ghdl s).2
          = handleFailure (recordCall s (DeviceCall.getTimestamp g.handle)) e := by
        simp [xrtGraphTimeStamp, get_graph_hdl, graph_impl.get_timestamp, hl, hd]
      rw [h1, handleFailure_caches, recordCall_caches]

theorem xrtGraphRun_frame (dev : Device) (ghdl : Nat) (iterations : Int) (s : ShimState) :
    caches (xrtGraphRun dev ghdl iterations s).2 = caches s := by
  cases hl : lookupA s.graph_cache ghdl with
  | none => simp [xrtGraphRun, get_graph_hdl, hl, handleFailure_caches]
  | some g =>
    cases hd : dev.run_graph g.handle iterations with
    | ok v => simp [xrtGraphRun, get_graph_hdl, graph_impl.run, hl, hd, caches, recordCall]
    | error e =>
      have h1 : (xrtGraphRun dev ghdl iterations s).2
          = handleFailure (recordCall s (DeviceCall.runGraph g.handle iterations)) e := by
        simp [xrtGraphRun, get_graph_hdl, graph_impl.run, hl, hd]
      rw [h1, handleFailure_caches, recordCall_caches]

theorem xrtGraphWaitDone_frame (dev : Device) (ghdl : Nat) (timeoutMilliSec : Int) (s : ShimState) :
    caches (xrtGraphWaitDone dev ghdl timeoutMilliSec s).2 = caches s := by
  cases hl : lookupA s.graph_cache ghdl with
  | none => simp [xrtGraphWaitDone, get_graph_hdl, hl, handleFailure_caches]
  | some g =>
    cases hd : dev.wait_graph_done g.handle timeoutMilliSec with
    | ok v => simp [xrtGraphWaitDone, get_graph_hdl, graph_impl.wait_timeout, hl, hd, caches, recordCall]
    | error e =>
      have h1 : (xrtGraphWaitDone dev ghdl timeoutMilliSec s).2
          = handleFailure (recordCall s (DeviceCall.waitGraphDone g.handle timeoutMilliSec)) e := by
        simp [xrtGraphWaitDone, get_graph_hdl, graph_impl.wait_timeout, hl, hd]
      rw [h1, handleFailure_caches, recordCall_caches]

theorem xrtGraphWait_frame (dev : Device) (ghdl : Nat) (cycle : Nat) (s : ShimState) :
    caches (xrtGraphWait dev ghdl cycle s).2 = caches s := by
  cases hl : lookupA s.graph_cache ghdl with
  | none => simp [xrtGraphWait, get_graph_hdl, hl, handleFailure_caches]
  | some g =>
    cases hd : dev.wait_graph g.handle cycle with
    | ok v => simp [xrtGraphWait, get_graph_hdl, graph_impl.wait_cycle, hl, hd, caches, recordCall]
    | error e =>
      have h1 : (xrtGraphWait dev ghdl cycle s).2
          = handleFailure (recordCall s (DeviceCall.waitGraph g.handle cycle)) e := by
        simp [xrtGraphWait, get_graph_hdl, graph_impl.wait_cycle, hl, hd]
      rw [h1, handleFailure_caches, recordCall_caches]

theorem xrtGraphSuspend_frame (dev : Device) (ghdl : Nat) (s : ShimState) :
    caches (xrtGraphSuspend dev ghdl s).2 = caches s := by
  cases hl : lookupA s.graph_cache ghdl with
  | none => simp [xrtGraphSuspend, get_graph_hdl, hl, handleFailure_caches]
  | some g =>
    cases hd : dev.suspend_graph g.handle with
    | ok v => simp [xrtGraphSuspend, get_graph_hdl, graph_impl.suspend, hl, hd, caches, recordCall]
    | error e =>
      have h1 : (xrtGraphSuspend dev ghdl s).2
          = handleFailure (recordCall s (DeviceCall.suspendGraph g.handle)) e := by
        simp [xrtGraphSuspend, get_graph_hdl, graph_impl.suspend, hl, hd]
      rw [h1, handleFailure_caches, recordCall_caches]

theorem xrtGraphResume_frame (dev : Device) (ghdl : Nat) (s : ShimState) :
    caches (xrtGraphResume dev ghdl s).2 = caches s := by
  cases hl : lookupA s.graph_cache ghdl with
  | none => simp [xrtGraphResume, get_graph_hdl, hl, handleFailure_caches]
  | some g =>
    cases hd : dev.resume_graph g.handle with
    | ok v => simp [xrtGraphResume, get_graph_hdl, graph_impl.resume, hl, hd, caches, recordCall]
    | error e =>
      have h1 : (xrtGraphResume dev ghdl s).2
          = handleFailure (recordCall s (DeviceCall.resumeGraph g.handle)) e := by
        simp [xrtGraphResume, get_graph_hdl, graph_impl.resume, hl, hd]
      rw [h1, handleFailure_caches, recordCall_caches]

theorem xrtGraphEnd_frame (dev : Device) (ghdl : Nat) (cycle : Nat) (s : ShimState) :
    caches (xrtGraphEnd dev ghdl cycle s).2 = caches s := by
  cases hl : lookupA s.graph_cache ghdl with
  | none => simp [xrtGraphEnd, get_graph_hdl, hl, handleFailure_caches]
  | some g =>
    cases hd : dev.end_graph g.handle cycle with
    | ok v => simp [xrtGraphEnd, get_graph_hdl, graph_impl.end_graph, hl, hd, caches, recordCall]
    | error e =>
      have h1 : (xrtGraphEnd dev ghdl cycle s).2
          = handleFailure (recordCall s (DeviceCall.endGraph g.handle cycle)) e := by
        simp [xrtGraphEnd, get_graph_hdl, graph_impl.end_graph, hl, hd]
      rw [h1, handleFailure_caches, recordCall_caches]

theorem xrtGraphUpdateRTP_frame (dev : Device) (ghdl : Nat) (port : String) (size : Nat) (s : ShimState) :
    caches (xrtGraphUpdateRTP dev ghdl port size s).2 = caches s := by
  cases hl : lookupA s.graph_cache ghdl with
  | none => simp [xrtGraphUpdateRTP, get_graph_hdl, hl, handleFailure_caches]
  | some g =>
    cases hd : dev.update_graph_rtp g.handle port size with
    | ok v => simp [xrtGraphUpdateRTP, get_graph_hdl, graph_impl.update_rtp, hl, hd, caches, recordCall]
    | error e =>
      have h1 : (xrtGraphUpdateRTP dev ghdl port size s).2
          = handleFailure (recordCall s (DeviceCall.updateGraphRtp g.handle port size)) e := by
        simp [xrtGraphUpdateRTP, get_graph_hdl, graph_impl.update_rtp, hl, hd]
      rw [h1, handleFailure_caches, recordCall_caches]

theorem xrtGraphReadRTP_frame (dev : Device) (ghdl : Nat) (port : String) (size : Nat) (s : ShimState) :
    caches (xrtGraphReadRTP dev ghdl port size s).2 = caches s := by
  cases hl : lookupA s.graph_cache ghdl with
  | none => simp [xrtGraphReadRTP, get_graph_hdl, hl, handleFailure_caches]
  | some g =>
    cases hd : dev.read_graph_rtp g.handle port size with
    | ok v => simp [xrtGraphReadRTP, get_graph_hdl, graph_impl.read_rtp, hl, hd, caches, recordCall]
    | error e =>
      have h1 : (xrtGraphReadRTP dev ghdl port size s).2
          = handleFailure (recordCall s (DeviceCall.readGraphRtp g.handle port size)) e := by
        simp [xrtGraphReadRTP, get_graph_hdl, graph_impl.read_rtp, hl, hd]
      rw [h1, handleFailure_caches, recordCall_caches]

theorem xrtAIEDeviceOpen_frame (dev : Device) (index : Nat) (s : ShimState) :
    caches (xrtAIEDeviceOpen dev index s).2 = caches s := by
  cases ho : dev.xrt_device_open index with
  | error e => simp [xrtAIEDeviceOpen, xrtDeviceOpen, ho, handleFailure_graph_cache, handleFailure_profiling_cache, caches, recordCall]
  | ok h =>
    cases hc : dev.get_core_device h with
    | error e => simp [xrtAIEDeviceOpen, xrtDeviceOpen, open_aie_context, ho, hc, handleFailure_graph_cache, handleFailure_profiling_cache, caches, recordCall]
    | ok u =>
      cases ha : dev.open_aie_context AieAccessMode.primary with
      | ok u2 => simp [xrtAIEDeviceOpen, xrtDeviceOpen, open_aie_context, ho, hc, ha, caches, recordCall]
      | error e =>
        have h1 : (xrtAIEDeviceOpen dev index s).2 = handleFailure (recordCall (recordCall s (DeviceCall.deviceOpen index))
            (DeviceCall.openAieContext AieAccessMode.primary)) e := by
          simp [xrtAIEDeviceOpen, xrtDeviceOpen, open_aie_context, ho, hc, ha]
        rw [h1, handleFailure_caches, recordCall_caches, recordCall_caches]

theorem xrtAIEDeviceOpenExclusive_frame (dev : Device) (index : Nat) (s : ShimState) :
    caches (xrtAIEDeviceOpenExclusive dev index s).2 = caches s := by
  cases ho : dev.xrt_device_open index with
  | error e => simp [xrtAIEDeviceOpenExclusive, xrtDeviceOpen, ho, handleFailure_graph_cache, handleFailure_profiling_cache, caches, recordCall]
  | ok h =>
    cases hc : dev.get_core_device h with
    | error e => simp [xrtAIEDeviceOpenExclusive, xrtDeviceOpen, open_aie_context, ho, hc, handleFailure_graph_cache, handleFailure_profiling_cache, caches, recordCall]
    | ok u =>
      cases ha : dev.open_aie_context AieAccessMode.exclusive with
      | ok u2 => simp [xrtAIEDeviceOpenExclusive, xrtDeviceOpen, open_aie_context, ho, hc, ha, caches, recordCall]
      | error e =>
        have h1 : (xrtAIEDeviceOpenExclusive dev index s).2 = handleFailure (recordCall (recordCall s (DeviceCall.deviceOpen index))
            (DeviceCall.openAieContext AieAccessMode.exclusive)) e := by
          simp [xrtAIEDeviceOpenExclusive, xrtDeviceOpen, open_aie_context, ho, hc, ha]
        rw [h1, handleFailure_caches, recordCall_caches, recordCall_caches]

theorem xrtAIEDeviceOpenShared_frame (dev : Device) (index : Nat) (s : ShimState) :
    caches (xrtAIEDeviceOpenShared dev index s).2 = caches s := by
  cases ho : dev.xrt_device_open index with
  | error e => simp [xrtAIEDeviceOpenShared, xrtDeviceOpen, ho, handleFailure_graph_cache, handleFailure_profiling_cache, caches, recordCall]
  | ok h =>
    cases hc : dev.get_core_device h with
    | error e => simp [xrtAIEDeviceOpenShared, xrtDeviceOpen, open_aie_context, ho, hc, handleFailure_graph_cache, handleFailure_profiling_cache, caches, recordCall]
    | ok u =>
      cases ha : dev.open_aie_context AieAccessMode.shared with
      | ok u2 => simp [xrtAIEDeviceOpenShared, xrtDeviceOpen, open_aie_context, ho, hc, ha, caches, recordCall]
      | error e =>
        have h1 : (xrtAIEDeviceOpenShared dev index s).2 = handleFailure (recordCall (recordCall s (DeviceCall.deviceOpen index))
            (DeviceCall.openAieContext AieAccessMode.shared)) e := by
          simp [xrtAIEDeviceOpenShared, xrtDeviceOpen, open_aie_context, ho, hc, ha]
        rw [h1, handleFailure_caches, recordCall_caches, recordCall_caches]

theorem xrtSyncBOAIE_frame (dev : Device) (dhdl bohdl : Nat) (gmio : String) (dir : Nat)
    (size offset : Nat) (s : ShimState) :
    caches (xrtSyncBOAIE dev dhdl bohdl gmio dir size offset s).2 = caches s := by
  cases hc : dev.get_core_device dhdl with
  | error e => simp [xrtSyncBOAIE, sync_aie_bo, hc, handleFailure_caches]
  | ok u =>
    cases hb : dev.get_bo bohdl with
    | error e => simp [xrtSyncBOAIE, sync_aie_bo, hc, hb, handleFailure_caches]
    | ok u2 =>
      cases hd : dev.sync_aie_bo bohdl gmio dir size offset with
      | ok v => simp [xrtSyncBOAIE, sync_aie_bo, hc, hb, hd, caches, recordCall]
      | error e =>
        have h1 : (xrtSyncBOAIE dev dhdl bohdl gmio dir size offset s).2 = handleFailure (recordCall s (DeviceCall.syncAieBo bohdl gmio dir size offset)) e := by
          simp [xrtSyncBOAIE, sync_aie_bo, hc, hb, hd]
        rw [h1, handleFailure_caches, recordCall_caches]

theorem xrtSyncBOAIENB_frame (dev : Device) (dhdl bohdl : Nat) (gmio : String) (dir : Nat)
    (size offset : Nat) (s : ShimState) :
    caches (xrtSyncBOAIENB dev dhdl bohdl gmio dir size offset s).2 = caches s := by
  cases hc : dev.get_core_device dhdl with
  | error e => simp [xrtSyncBOAIENB, sync_aie_bo_nb, hc, handleFailure_caches]
  | ok u =>
    cases hb : dev.get_bo bohdl with
    | error e => simp [xrtSyncBOAIENB, sync_aie_bo_nb, hc, hb, handleFailure_caches]
    | ok u2 =>
      cases hd : dev.sync_aie_bo_nb bohdl gmio dir size offset with
      | ok v => simp [xrtSyncBOAIENB, sync_aie_bo_nb, hc, hb, hd, caches, recordCall]
      | error e =>
        have h1 : (xrtSyncBOAIENB dev dhdl bohdl gmio dir size offset s).2 = handleFailure (recordCall s (DeviceCall.syncAieBoNb bohdl gmio dir size offset)) e := by
          simp [xrtSyncBOAIENB, sync_aie_bo_nb, hc, hb, hd]
        rw [h1, handleFailure_caches, recordCall_caches]

theorem xrtAIESyncBO_frame (dev : Device) (dhdl bohdl : Nat) (gmio : String) (dir : Nat)
    (size offset : Nat) (s : ShimState) :
    caches (xrtAIESyncBO dev dhdl bohdl gmio dir size offset s).2 = caches s :=
  xrtSyncBOAIE_frame dev dhdl bohdl gmio dir size offset s

theorem xrtResetAIEArray_frame (dev : Device) (dhdl : Nat) (s : ShimState) :
    caches (xrtResetAIEArray dev dhdl s).2 = caches s := by
  cases hc : dev.get_core_device dhdl with
  | error e => simp [xrtResetAIEArray, reset_aie, hc, handleFailure_caches]
  | ok u =>
    cases hd : dev.reset_aie with
    | ok v => simp [xrtResetAIEArray, reset_aie, hc, hd, caches, recordCall]
    | error e =>
      have h1 : (xrtResetAIEArray dev dhdl s).2
          = handleFailure (recordCall s DeviceCall.resetAie) e := by
        simp [xrtResetAIEArray, reset_aie, hc, hd]
      rw [h1, handleFailure_caches, recordCall_caches]

theorem xrtAIEResetArray_frame (dev : Device) (dhdl : Nat) (s : ShimState) :
    caches (xrtAIEResetArray dev dhdl s).2 = caches s :=
  xrtResetAIEArray_frame dev dhdl s

theorem xrtGMIOWait_frame (dev : Device) (dhdl : Nat) (gmio : String) (s : ShimState) :
    caches (xrtGMIOWait dev dhdl gmio s).2 = caches s := by
  cases hc : dev.get_core_device dhdl with
  | error e => simp [xrtGMIOWait, wait_gmio, hc, handleFailure_caches]
  | ok u =>
    cases hd : dev.wait_gmio gmio with
    | ok v => simp [xrtGMIOWait, wait_gmio, hc, hd, caches, recordCall]
    | error e =>
      have h1 : (xrtGMIOWait dev dhdl gmio s).2
          = handleFailure (recordCall s (DeviceCall.waitGmio gmio)) e := by
        simp [xrtGMIOWait, wait_gmio, hc, hd]
      rw [h1, handleFailure_caches, recordCall_caches]

theorem xrtAIEReadProfiling_frame (dev : Device) (pHandle : Int) (s : ShimState) :
    caches (xrtAIEReadProfiling dev pHandle s).2 = caches s := by
  cases hl : lookupA s.profiling_cache pHandle with
  | none => simp [xrtAIEReadProfiling, hl, handleFailure_caches]
  | some p =>
    by_cases hp : p.profiling_hdl = invalid_handle
    · simp [xrtAIEReadProfiling, profiling_impl.read_profiling, hl, hp, handleFailure_caches]
    · cases hd : dev.read_profiling p.profiling_hdl with
      | ok v => simp [xrtAIEReadProfiling, profiling_impl.read_profiling, hl, hp, hd, caches, recordCall]
      | error e =>
        have h1 : (xrtAIEReadProfiling dev pHandle s).2
            = handleFailure (recordCall s (DeviceCall.readProfiling p.profiling_hdl)) e := by
          simp [xrtAIEReadProfiling, profiling_impl.read_profiling, hl, hp, hd]
        rw [h1, handleFailure_caches, recordCall_caches]

theorem xrtGraphOpen_pframe (dev : Device) (dhdl uuid : Nat) (name : String) (s : ShimState) :
    (xrtGraphOpen dev dhdl uuid name s).2.profiling_cache = s.profiling_cache := by
  cases hc : dev.get_core_device dhdl with
  | error e => simp [xrtGraphOpen, open_graph_c, hc, handleFailure_profiling_cache]
  | ok u =>
    cases ho : dev.open_graph uuid name AccessMode.primary with
    | error e =>
      have h1 : (xrtGraphOpen dev dhdl uuid name s).2
          = handleFailure (recordCall s (DeviceCall.openGraph uuid name AccessMode.primary)) e := by
        simp [xrtGraphOpen, open_graph_c, hc, ho]
      rw [h1, handleFailure_profiling_cache]; rfl
    | ok h => simp [xrtGraphOpen, open_graph_c, hc, ho, recordCall]

theorem xrtGraphOpenExclusive_pframe (dev : Device) (dhdl uuid : Nat) (name : String) (s : ShimState) :
    (xrtGraphOpenExclusive dev dhdl uuid name s).2.profiling_cache = s.profiling_cache := by
  cases hc : dev.get_core_device dhdl with
  | error e => simp [xrtGraphOpenExclusive, open_graph_c, hc, handleFailure_profiling_cache]
  | ok u =>
    cases ho : dev.open_graph uuid name AccessMode.exclusive with
    | error e =>
      have h1 : (xrtGraphOpenExclusive dev dhdl uuid name s).2
          = handleFailure (recordCall s (DeviceCall.openGraph uuid name AccessMode.exclusive)) e := by
        simp [xrtGraphOpenExclusive, open_graph_c, hc, ho]
      rw [h1, handleFailure_profiling_cache]; rfl
    | ok h => simp [xrtGraphOpenExclusive, open_graph_c, hc, ho, recordCall]

theorem xrtGraphOpenShared_pframe (dev : Device) (dhdl uuid : Nat) (name : String) (s : ShimState) :
    (xrtGraphOpenShared dev dhdl uuid name s).2.profiling_cache = s.profiling_cache := by
  cases hc : dev.get_core_device dhdl with
  | error e => simp [xrtGraphOpenShared, open_graph_c, hc, handleFailure_profiling_cache]
  | ok u =>
    cases ho : dev.open_graph uuid name AccessMode.shared with
    | error e =>
      have h1 : (xrtGraphOpenShared dev dhdl uuid name s).2
          = handleFailure (recordCall s (DeviceCall.openGraph uuid name AccessMode.shared)) e := by
        simp [xrtGraphOpenShared, open_graph_c, hc, ho]
      rw [h1, handleFailure_profiling_cache]; rfl
    | ok h => simp [xrtGraphOpenShared, open_graph_c, hc, ho, recordCall]

theorem xrtGraphClose_pframe (dev : Device) (ghdl : Nat) (s : ShimState) :
    (xrtGraphClose dev ghdl s).2.profiling_cache = s.profiling_cache := by
  cases hl : lookupA s.graph_cache ghdl with
  | none => simp [xrtGraphClose, close_graph, hl, handleFailure_profiling_cache]
  | some g => simp [xrtGraphClose, close_graph, graph_impl.destruct, recordCall, hl]

theorem xrtAIEStartProfiling_gframe (dev : Device) (dhdl : Nat) (option : Int)
    (port1 port2 : String) (value : Nat) (s : ShimState) :
    (xrtAIEStartProfiling dev dhdl option port1 port2 value s).2.graph_cache = s.graph_cache := by
  cases hc : dev.get_core_device dhdl with
  | error e => simp [xrtAIEStartProfiling, create_profiling_event, hc, handleFailure_graph_cache]
  | ok u =>
    by_cases hopt : option < 0 ∨ 3 < option
    · have h1 : (xrtAIEStartProfiling dev dhdl option port1 port2 value s).2
          = handleFailure (profiling_impl.destruct dev (profiling_impl.mk invalid_handle) s)
              (CppError.xrtError (-EINVAL) "Not a valid profiling option") := by
        simp [xrtAIEStartProfiling, create_profiling_event, hc, hopt]
      rw [h1, handleFailure_graph_cache]; rfl
    · cases hd : dev.start_profiling option port1 port2 value with
      | error e =>
        have h1 : (xrtAIEStartProfiling dev dhdl option port1 port2 value s).2
            = handleFailure (profiling_impl.destruct dev (profiling_impl.mk invalid_handle)
                (recordCall s (DeviceCall.startProfiling option port1 port2 value))) e := by
          simp [xrtAIEStartProfiling, create_profiling_event, profiling_impl.start_profiling,
            hc, hopt, hd]
        rw [h1, handleFailure_graph_cache]; rfl
      | ok h =>
        by_cases hh : h = invalid_handle
        · have h1 : (xrtAIEStartProfiling dev dhdl option port1 port2 value s).2
              = handleFailure (profiling_impl.destruct dev (profiling_impl.mk h)
                  (recordCall s (DeviceCall.startProfiling option port1 port2 value)))
                  (CppError.xrtError (-EINVAL) "Not a valid profiling handle") := by
            simp [xrtAIEStartProfiling, create_profiling_event, profiling_impl.start_profiling,
              hc, hopt, hd, hh]
          rw [h1, handleFailure_graph_cache]; rfl
        · cases hold : lookupA s.profiling_cache h <;>
            simp [xrtAIEStartProfiling, create_profiling_event, profiling_impl.start_profiling,
              profiling_impl.destruct, recordCall, hc, hopt, hd, hh, hold]

theorem xrtAIEStopProfiling_gframe (dev : Device) (pHandle : Int) (s : ShimState) :
    (xrtAIEStopProfiling dev pHandle s).2.graph_cache = s.graph_cache := by
  cases hl : lookupA s.profiling_cache pHandle with
  | none => simp [xrtAIEStopProfiling, hl, handleFailure_graph_cache]
  | some p =>
    by_cases hp : p.profiling_hdl = invalid_handle
    · simp [xrtAIEStopProfiling, profiling_impl.stop_profiling, hl, hp, handleFailure_graph_cache]
    · cases hd : dev.stop_profiling p.profiling_hdl with
      | ok v =>
        simp [xrtAIEStopProfiling, profiling_impl.stop_profiling, profiling_impl.destruct,
          recordCall, hl, hp, hd]
      | error e =>
        have h1 : (xrtAIEStopProfiling dev pHandle s).2
            = handleFailure (recordCall s (DeviceCall.stopProfiling p.profiling_hdl)) e := by
          simp [xrtAIEStopProfiling, profiling_impl.stop_profiling, hl, hp, hd]
        rw [h1, handleFailure_graph_cache]; rfl


/-! ## Claims -/

/-- Claim C3, counterexample: with a zero timeout, the object-oriented
timeout-based wait invokes the device's cycle-count wait operation
(wait_graph with cycle 0), not wait-graph-done, refuting the claim that
for every timeout value, including zero, only wait-graph-done is
invoked. -/
theorem claim_C3_counterexample :
    (graph.wait_ms okDevice (graph_impl.mk 7) 0 initState).2.trace
      = [DeviceCall.waitGraph 7 0] ∧
    DeviceCall.waitGraph 7 0 ≠ DeviceCall.waitGraphDone 7 0 :=
  ⟨rfl, by decide⟩

/-- Claim C3 (amended): for every nonzero timeout the object-oriented
timeout-based wait invokes only the device's wait-graph-done operation;
a zero timeout is dispatched to the device's cycle-count wait with cycle
0; and for every cycle value the cycle-based wait invokes only the
device's cycle-count wait operation. -/
theorem claim_C3 :
    (∀ (dev : Device) (g : graph_impl) (t : Int) (s : ShimState), t ≠ 0 →
      (graph.wait_ms dev g t s).2.trace = s.trace ++ [DeviceCall.waitGraphDone g.handle t]) ∧
    (∀ (dev : Device) (g : graph_impl) (s : ShimState),
      (graph.wait_ms dev g 0 s).2.trace = s.trace ++ [DeviceCall.waitGraph g.handle 0]) ∧
    (∀ (dev : Device) (g : graph_impl) (c : Nat) (s : ShimState),
      (graph.wait_cycles dev g c s).2.trace = s.trace ++ [DeviceCall.waitGraph g.handle c]) := by
  refine ⟨?_, ?_, ?_⟩
  · intro dev g t s ht
    cases hd : dev.wait_graph_done g.handle t <;>
      simp [graph.wait_ms, graph_impl.wait_timeout, ht, hd, recordCall]
  · intro dev g s
    simp [graph.wait_ms, graph_impl.wait_cycle, recordCall]
  · intro dev g c s
    simp [graph.wait_cycles, graph_impl.wait_cycle, recordCall]

/-- Claim C3, witness: the amended theorem applied at timeout 5. -/
theorem claim_C3_witness :
    (5 : Int) ≠ 0 ∧
    (graph.wait_ms okDevice (graph_impl.mk 7) 5 initState).2.trace
      = initState.trace ++ [DeviceCall.waitGraphDone 7 5] :=
  ⟨by decide, claim_C3.1 okDevice (graph_impl.mk 7) 5 initState (by decide)⟩

/-- Claim C4, counterexample: opening then closing removes the handle,
and a second close of the same handle does fail, but with the generic
"Unexpected internal error" std::runtime_error, not with an
invalid-handle error: errno stays 0 (an invalid-handle failure would set
it to -EINVAL) and the logged diagnostic is the generic one. -/
theorem claim_C4_counterexample :
    (close_graph okDevice 1 (xrtGraphClose okDevice 1 gState).2).1
      = Except.error (CppError.stdError "Unexpected internal error") ∧
    (xrtGraphClose okDevice 1 (xrtGraphClose okDevice 1 gState).2).2.errno = 0 ∧
    (xrtGraphClose okDevice 1 (xrtGraphClose okDevice 1 gState).2).2.log
      = ["Unexpected internal error"] :=
  ⟨rfl, rfl, rfl⟩

/-- Claim C4 (amended): closing a registered handle removes it from the
graph registry, so a second close of the same handle does not succeed;
the second close fails with the generic unexpected-internal error (the
diagnostic is logged, errno is left unchanged), not with an
invalid-handle error. -/
theorem claim_C4 :
    (∀ (dev : Device) (hdl : Nat) (g : graph_impl) (s : ShimState),
      (s.graph_cache.map Prod.fst).Nodup → lookupA s.graph_cache hdl = some g →
      (xrtGraphClose dev hdl s).2.graph_cache = eraseA s.graph_cache hdl ∧
      lookupA (xrtGraphClose dev hdl s).2.graph_cache hdl = none) ∧
    (∀ (dev : Device) (hdl : Nat) (s : ShimState),
      lookupA s.graph_cache hdl = none →
      xrtGraphClose dev hdl s
        = ((), { s with log := s.log ++ ["Unexpected internal error"] })) := by
  refine ⟨?_, ?_⟩
  · intro dev hdl g s hnd hl
    have hcache : (xrtGraphClose dev hdl s).2.graph_cache = eraseA s.graph_cache hdl := by
      simp [xrtGraphClose, close_graph, graph_impl.destruct, recordCall, hl]
    exact ⟨hcache, by rw [hcache]; exact lookupA_eraseA_self s.graph_cache hdl hnd⟩
  · intro dev hdl s hl
    simp [xrtGraphClose, close_graph, hl, handleFailure]

/-- Claim C4, witness: the amended theorem applied to a state holding
one open graph (first close) and to the empty registry (second close). -/
theorem claim_C4_witness :
    ((gState.graph_cache.map Prod.fst).Nodup ∧
     lookupA gState.graph_cache 1 = some (graph_impl.mk 7) ∧
     (xrtGraphClose okDevice 1 gState).2.graph_cache = eraseA gState.graph_cache 1 ∧
     lookupA (xrtGraphClose okDevice 1 gState).2.graph_cache 1 = none) ∧
    (lookupA initState.graph_cache 5 = none ∧
     xrtGraphClose okDevice 5 initState
       = ((), { initState with log := initState.log ++ ["Unexpected internal error"] })) :=
  ⟨⟨by decide, rfl, (claim_C4.1 okDevice 1 (graph_impl.mk 7) gState (by decide) rfl).1,
    (claim_C4.1 okDevice 1 (graph_impl.mk 7) gState (by decide) rfl).2⟩,
   rfl, claim_C4.2 okDevice 5 initState rfl⟩

/-- Claim C5: starting profiling with an option outside 0..3 on the
plain-handle surface fails with the sentinel -1 and errno -EINVAL, and
the device's start-profiling operation is never invoked (the only device
interaction on that path is the destructor of the temporary event, a
stop-profiling on the sentinel handle); the object-oriented start
performs no range check and forwards every option value to the device's
start-profiling operation. -/
theorem claim_C5 :
    (∀ (dev : Device) (dhdl : Nat) (option : Int) (port1 port2 : String) (value : Nat)
      (s : ShimState), dev.get_core_device dhdl = Except.ok () →
      (option < 0 ∨ 3 < option) →
      xrtAIEStartProfiling dev dhdl option port1 port2 value s
        = (-1, { s with
                 trace := s.trace ++ [DeviceCall.stopProfiling invalid_handle],
                 errno := -EINVAL, log := s.log ++ ["Not a valid profiling option"] })) ∧
    (∀ (dev : Device) (p : profiling_impl) (option : Int) (port1 port2 : String) (value : Nat)
      (s : ShimState),
      (profiling.start dev p option port1 port2 value s).2
        = recordCall s (DeviceCall.startProfiling option port1 port2 value)) := by
  refine ⟨?_, ?_⟩
  · intro dev dhdl option port1 port2 value s hc hopt
    simp [xrtAIEStartProfiling, create_profiling_event, profiling_impl.destruct, recordCall,
      handleFailure, hc, hopt]
  · intro dev p option port1 port2 value s
    cases hd : dev.start_profiling option port1 port2 value <;>
      simp [profiling.start, profiling_impl.start_profiling, hd]

/-- Claim C5, witness: the theorem applied at the out-of-range option 4
on a device whose handle lookup succeeds. -/
theorem claim_C5_witness :
    okDevice.get_core_device 0 = Except.ok () ∧ ((4 : Int) < 0 ∨ (3 : Int) < 4) ∧
    xrtAIEStartProfiling okDevice 0 4 "P0" "P1" 1024 initState
      = (-1, { initState with
               trace := initState.trace ++ [DeviceCall.stopProfiling invalid_handle],
               errno := -EINVAL, log := initState.log ++ ["Not a valid profiling option"] }) :=
  ⟨rfl, by decide, claim_C5.1 okDevice 0 4 "P0" "P1" 1024 initState rfl (by decide)⟩


/-- Claim C7: each of the three AIE device-open entry points first opens
the underlying device, then establishes the AIE context under its access
mode, and only then returns the device handle; if context establishment
fails after a successful device open, the entry point returns the null
handle and the calls it issued are exactly the device open followed by
the context attempt — in particular no device close is issued.
(xrtDeviceOpen itself lives outside this file set and is modelled from
the spec as yielding the underlying device handle.) -/
theorem claim_C7 :
    (∀ (dev : Device) (index : Nat) (s : ShimState) (h : Nat) (e : CppError),
      dev.xrt_device_open index = Except.ok h → dev.get_core_device h = Except.ok () →
      dev.open_aie_context AieAccessMode.primary = Except.error e →
      (xrtAIEDeviceOpen dev index s).1 = XRT_NULL_HANDLE ∧
      (xrtAIEDeviceOpen dev index s).2.trace
        = s.trace ++ [DeviceCall.deviceOpen index,
                      DeviceCall.openAieContext AieAccessMode.primary]) ∧
    (∀ (dev : Device) (index : Nat) (s : ShimState) (h : Nat),
      dev.xrt_device_open index = Except.ok h → dev.get_core_device h = Except.ok () →
      dev.open_aie_context AieAccessMode.primary = Except.ok () →
      xrtAIEDeviceOpen dev index s
        = (h, recordCall (recordCall s (DeviceCall.deviceOpen index))
              (DeviceCall.openAieContext AieAccessMode.primary))) ∧
    (∀ (dev : Device) (index : Nat) (s : ShimState) (h : Nat) (e : CppError),
      dev.xrt_device_open index = Except.ok h → dev.get_core_device h = Except.ok () →
      dev.open_aie_context AieAccessMode.exclusive = Except.error e →
      (xrtAIEDeviceOpenExclusive dev index s).1 = XRT_NULL_HANDLE ∧
      (xrtAIEDeviceOpenExclusive dev index s).2.trace
        = s.trace ++ [DeviceCall.deviceOpen index,
                      DeviceCall.openAieContext AieAccessMode.exclusive]) ∧
    (∀ (dev : Device) (index : Nat) (s : ShimState) (h : Nat),
      dev.xrt_device_open index = Except.ok h → dev.get_core_device h = Except.ok () →
      dev.open_aie_context AieAccessMode.exclusive = Except.ok () →
      xrtAIEDeviceOpenExclusive dev index s
        = (h, recordCall (recordCall s (DeviceCall.deviceOpen index))
              (DeviceCall.openAieContext AieAccessMode.exclusive))) ∧
    (∀ (dev : Device) (index : Nat) (s : ShimState) (h : Nat) (e : CppError),
      dev.xrt_device_open index = Except.ok h → dev.get_core_device h = Except.ok () →
      dev.open_aie_context AieAccessMode.shared = Except.error e →
      (xrtAIEDeviceOpenShared dev index s).1 = XRT_NULL_HANDLE ∧
      (xrtAIEDeviceOpenShared dev index s).2.trace
        = s.trace ++ [DeviceCall.deviceOpen index,
                      DeviceCall.openAieContext AieAccessMode.shared]) ∧
    (∀ (dev : Device) (index : Nat) (s : ShimState) (h : Nat),
      dev.xrt_device_open index = Except.ok h → dev.get_core_device h = Except.ok () →
      dev.open_aie_context AieAccessMode.shared = Except.ok () →
      xrtAIEDeviceOpenShared dev index s
        = (h, recordCall (recordCall s (DeviceCall.deviceOpen index))
              (DeviceCall.openAieContext AieAccessMode.shared))) ∧
    (∀ (index dhdl : Nat) (am : AieAccessMode),
      DeviceCall.deviceOpen index ≠ DeviceCall.deviceClose dhdl ∧
      DeviceCall.openAieContext am ≠ DeviceCall.deviceClose dhdl) := by
  refine ⟨?_, ?_, ?_, ?_, ?_, ?_, ?_⟩
  · intro dev index s h e ho hc ha
    refine ⟨?_, ?_⟩ <;>
      simp [xrtAIEDeviceOpen, xrtDeviceOpen, open_aie_context, ho, hc, ha,
        handleFailure_trace, recordCall]
  · intro dev index s h ho hc ha
    simp [xrtAIEDeviceOpen, xrtDeviceOpen, open_aie_context, ho, hc, ha]
  · intro dev index s h e ho hc ha
    refine ⟨?_, ?_⟩ <;>
      simp [xrtAIEDeviceOpenExclusive, xrtDeviceOpen, open_aie_context, ho, hc, ha,
        handleFailure_trace, recordCall]
  · intro dev index s h ho hc ha
    simp [xrtAIEDeviceOpenExclusive, xrtDeviceOpen, open_aie_context, ho, hc, ha]
  · intro dev index s h e ho hc ha
    refine ⟨?_, ?_⟩ <;>
      simp [xrtAIEDeviceOpenShared, xrtDeviceOpen, open_aie_context, ho, hc, ha,
        handleFailure_trace, recordCall]
  · intro dev index s h ho hc ha
    simp [xrtAIEDeviceOpenShared, xrtDeviceOpen, open_aie_context, ho, hc, ha]
  · intro index dhdl am
    exact ⟨by simp, by simp⟩

/-- Claim C7, witness: the theorem applied to a device whose context
establishment fails (ctxFailDevice) and to one where it succeeds
(okDevice), at index 0. -/
theorem claim_C7_witness :
    (ctxFailDevice.xrt_device_open 0 = Except.ok 1 ∧
     ctxFailDevice.get_core_device 1 = Except.ok () ∧
     ctxFailDevice.open_aie_context AieAccessMode.primary
       = Except.error (CppError.xrtError (-EINVAL) "ctx") ∧
     (xrtAIEDeviceOpen ctxFailDevice 0 initState).1 = XRT_NULL_HANDLE ∧
     (xrtAIEDeviceOpen ctxFailDevice 0 initState).2.trace
       = initState.trace ++ [DeviceCall.deviceOpen 0,
                             DeviceCall.openAieContext AieAccessMode.primary]) ∧
    (okDevice.xrt_device_open 0 = Except.ok 1 ∧
     okDevice.get_core_device 1 = Except.ok () ∧
     okDevice.open_aie_context AieAccessMode.primary = Except.ok () ∧
     xrtAIEDeviceOpen okDevice 0 initState
       = (1, recordCall (recordCall initState (DeviceCall.deviceOpen 0))
             (DeviceCall.openAieContext AieAccessMode.primary))) ∧
    (xrtAIEDeviceOpenExclusive ctxFailDevice 0 initState).1 = XRT_NULL_HANDLE ∧
    xrtAIEDeviceOpenExclusive okDevice 0 initState
      = (1, recordCall (recordCall initState (DeviceCall.deviceOpen 0))
            (DeviceCall.openAieContext AieAccessMode.exclusive)) ∧
    (xrtAIEDeviceOpenShared ctxFailDevice 0 initState).1 = XRT_NULL_HANDLE ∧
    xrtAIEDeviceOpenShared okDevice 0 initState
      = (1, recordCall (recordCall initState (DeviceCall.deviceOpen 0))
            (DeviceCall.openAieContext AieAccessMode.shared)) ∧
    DeviceCall.deviceOpen 0 ≠ DeviceCall.deviceClose 1 ∧
    DeviceCall.openAieContext AieAccessMode.primary ≠ DeviceCall.deviceClose 1 :=
  ⟨⟨rfl, rfl, rfl,
    (claim_C7.1 ctxFailDevice 0 initState 1 (CppError.xrtError (-EINVAL) "ctx") rfl rfl rfl).1,
    (claim_C7.1 ctxFailDevice 0 initState 1 (CppError.xrtError (-EINVAL) "ctx") rfl rfl rfl).2⟩,
   ⟨rfl, rfl, rfl, claim_C7.2.1 okDevice 0 initState 1 rfl rfl rfl⟩,
   (claim_C7.2.2.1 ctxFailDevice 0 initState 1 (CppError.xrtError (-EINVAL) "ctx") rfl rfl rfl).1,
   claim_C7.2.2.2.1 okDevice 0 initState 1 rfl rfl rfl,
   (claim_C7.2.2.2.2.1 ctxFailDevice 0 initState 1 (CppError.xrtError (-EINVAL) "ctx") rfl rfl rfl).1,
   claim_C7.2.2.2.2.2.1 okDevice 0 initState 1 rfl rfl rfl,
   (claim_C7.2.2.2.2.2.2 0 1 AieAccessMode.primary).1,
   (claim_C7.2.2.2.2.2.2 0 1 AieAccessMode.primary).2⟩

/-- Claim C8: reading or stopping profiling before a successful start
fails on both surfaces: the object-oriented read and stop raise the
structured -EINVAL invalid-argument error whenever the stored profiling
handle equals the not-started sentinel (with no device call and no state
change), and the plain-handle read and stop fail with the -EINVAL
invalid-handle error for any profiling handle absent from the registry
(sentinel result for read, errno set, diagnostic logged). -/
theorem claim_C8 :
    (∀ (dev : Device) (p : profiling_impl) (s : ShimState),
      p.profiling_hdl = invalid_handle →
      profiling_impl.read_profiling dev p s
        = (Except.error (CppError.xrtError (-EINVAL) "Not a valid profiling handle"), s)) ∧
    (∀ (dev : Device) (p : profiling_impl) (s : ShimState),
      p.profiling_hdl = invalid_handle →
      profiling_impl.stop_profiling dev p s
        = ((Except.error (CppError.xrtError (-EINVAL) "Not a valid profiling handle"), p), s)) ∧
    (∀ (dev : Device) (ph : Int) (s : ShimState),
      lookupA s.profiling_cache ph = none →
      xrtAIEReadProfiling dev ph s
        = (UINT64_MAX, { s with
                         errno := -EINVAL,
                         log := s.log ++ ["No such profiling handle"] })) ∧
    (∀ (dev : Device) (ph : Int) (s : ShimState),
      lookupA s.profiling_cache ph = none →
      xrtAIEStopProfiling dev ph s
        = ((), { s with
                 errno := -EINVAL,
                 log := s.log ++ ["No such profiling handle"] })) := by
  refine ⟨?_, ?_, ?_, ?_⟩
  · intro dev p s hp
    simp [profiling_impl.read_profiling, hp]
  · intro dev p s hp
    simp [profiling_impl.stop_profiling, hp]
  · intro dev ph s hl
    simp [xrtAIEReadProfiling, hl, handleFailure]
  · intro dev ph s hl
    simp [xrtAIEStopProfiling, hl, handleFailure]

/-- Claim C8, witness: the theorem applied to a never-started profiling
object and to the empty registry at profiling handle 3. -/
theorem claim_C8_witness :
    ((profiling_impl.mk invalid_handle).profiling_hdl = invalid_handle ∧
     profiling_impl.read_profiling okDevice (profiling_impl.mk invalid_handle) initState
       = (Except.error (CppError.xrtError (-EINVAL) "Not a valid profiling handle"),
          initState)) ∧
    (profiling_impl.stop_profiling okDevice (profiling_impl.mk invalid_handle) initState
       = ((Except.error (CppError.xrtError (-EINVAL) "Not a valid profiling handle"),
           profiling_impl.mk invalid_handle), initState)) ∧
    (lookupA initState.profiling_cache 3 = none ∧
     xrtAIEReadProfiling okDevice 3 initState
       = (UINT64_MAX, { initState with
                        errno := -EINVAL,
                        log := initState.log ++ ["No such profiling handle"] })) ∧
    (xrtAIEStopProfiling okDevice 3 initState
       = ((), { initState with
                errno := -EINVAL,
                log := initState.log ++ ["No such profiling handle"] })) :=
  ⟨⟨rfl, claim_C8.1 okDevice (profiling_impl.mk invalid_handle) initState rfl⟩,
   claim_C8.2.1 okDevice (profiling_impl.mk invalid_handle) initState rfl,
   ⟨rfl, claim_C8.2.2.1 okDevice 3 initState rfl⟩,
   claim_C8.2.2.2 okDevice 3 initState rfl⟩

/-- Claim C10: destroying a profiling object always issues the device
stop-profiling call with the object's current handle — the sentinel -1
included — and changes nothing but the trace (no diagnostic, no errno,
destruction never fails, any device failure being swallowed), whereas
the explicit stop rejects the sentinel with a structured error and no
device call; in the plain-handle stop flow the explicit stop resets the
handle and the subsequent destruction of the erased object issues a
second device stop on the sentinel. -/
theorem claim_C10 :
    (∀ (dev : Device) (p : profiling_impl) (s : ShimState),
      profiling_impl.destruct dev p s
        = { s with trace := s.trace ++ [DeviceCall.stopProfiling p.profiling_hdl] }) ∧
    (∀ (dev : Device) (s : ShimState),
      profiling_impl.destruct dev (profiling_impl.mk invalid_handle) s
        = { s with trace := s.trace ++ [DeviceCall.stopProfiling invalid_handle] }) ∧
    (∀ (dev : Device) (s : ShimState),
      (profiling_impl.stop_profiling dev (profiling_impl.mk invalid_handle) s).1.1
        = Except.error (CppError.xrtError (-EINVAL) "Not a valid profiling handle") ∧
      (profiling_impl.stop_profiling dev (profiling_impl.mk invalid_handle) s).2.trace
        = s.trace) ∧
    (∀ (dev : Device) (ph : Int) (p : profiling_impl) (s : ShimState),
      lookupA s.profiling_cache ph = some p → p.profiling_hdl ≠ invalid_handle →
      dev.stop_profiling p.profiling_hdl = Except.ok () →
      (xrtAIEStopProfiling dev ph s).2.trace
        = s.trace ++ [DeviceCall.stopProfiling p.profiling_hdl,
                      DeviceCall.stopProfiling invalid_handle] ∧
      (xrtAIEStopProfiling dev ph s).2.log = s.log ∧
      (xrtAIEStopProfiling dev ph s).2.errno = s.errno) := by
  refine ⟨?_, ?_, ?_, ?_⟩
  · intro dev p s
    rfl
  · intro dev s
    rfl
  · intro dev s
    exact ⟨by simp [profiling_impl.stop_profiling, invalid_handle],
           by simp [profiling_impl.stop_profiling, invalid_handle]⟩
  · intro dev ph p s hl hp hd
    refine ⟨?_, ?_, ?_⟩ <;>
      simp [xrtAIEStopProfiling, profiling_impl.stop_profiling, profiling_impl.destruct,
        recordCall, hl, hp, hd]

/-- Claim C10, witness: the theorem applied to a started profiling
object (handle 9) whose explicit stop succeeds. -/
theorem claim_C10_witness :
    lookupA pState.profiling_cache 9 = some (profiling_impl.mk 9) ∧
    (profiling_impl.mk 9).profiling_hdl ≠ invalid_handle ∧
    okDevice.stop_profiling 9 = Except.ok () ∧
    (xrtAIEStopProfiling okDevice 9 pState).2.trace
      = pState.trace ++ [DeviceCall.stopProfiling 9,
                         DeviceCall.stopProfiling invalid_handle] ∧
    (xrtAIEStopProfiling okDevice 9 pState).2.log = pState.log :=
  ⟨rfl, by decide, rfl,
   (claim_C10.2.2.2 okDevice 9 (profiling_impl.mk 9) pState rfl (by decide) rfl).1,
   (claim_C10.2.2.2 okDevice 9 (profiling_impl.mk 9) pState rfl (by decide) rfl).2.1⟩


/-! ## Device close_graph accounting (for the release-exactly-once claim) -/

/-- Number of device close_graph invocations in a trace. -/
def closeCalls (t : List DeviceCall) : Nat :=
  (t.filter fun c => match c with
    | DeviceCall.closeGraph _ => true
    | _ => false).length

theorem closeCalls_append (t u : List DeviceCall) :
    closeCalls (t ++ u) = closeCalls t + closeCalls u := by
  simp [closeCalls, List.filter_append]

theorem xrtGraphReset_closeCalls (dev : Device) (ghdl : Nat) (s : ShimState) :
    closeCalls (xrtGraphReset dev ghdl s).2.trace = closeCalls s.trace := by
  cases hl : lookupA s.graph_cache ghdl with
  | none => simp [xrtGraphReset, get_graph_hdl, hl, handleFailure_trace]
  | some g =>
    cases hd : dev.reset_graph g.handle with
    | ok v =>
      simp [xrtGraphReset, get_graph_hdl, graph_impl.reset, hl, hd, recordCall, closeCalls_append, closeCalls]
    | error e =>
      have h1 : (xrtGraphReset dev ghdl s).2
          = handleFailure (recordCall s (DeviceCall.resetGraph g.handle)) e := by
        simp [xrtGraphReset, get_graph_hdl, graph_impl.reset, hl, hd]
      rw [h1, handleFailure_trace]
      simp [recordCall, closeCalls_append, closeCalls]

theorem xrtGraphTimeStamp_closeCalls (dev : Device) (ghdl : Nat) (s : ShimState) :
    closeCalls (xrtGraphTimeStamp dev ghdl s).2.trace = closeCalls s.trace := by
  cases hl : lookupA s.graph_cache ghdl with
  | none => simp [xrtGraphTimeStamp, get_graph_hdl, hl, handleFailure_trace]
  | some g =>
    cases hd : dev.get_timestamp g.handle with
    | ok v =>
      simp [xrtGraphTimeStamp, get_graph_hdl, graph_impl.get_timestamp, hl, hd, recordCall, closeCalls_append, closeCalls]
    | error e =>
      have h1 : (xrtGraphTimeStamp dev ghdl s).2
          = handleFailure (recordCall s (DeviceCall.getTimestamp g.handle)) e := by
        simp [xrtGraphTimeStamp, get_graph_hdl, graph_impl.get_timestamp, hl, hd]
      rw [h1, handleFailure_trace]
      simp [recordCall, closeCalls_append, closeCalls]

theorem xrtGraphRun_closeCalls (dev : Device) (ghdl : Nat) (iterations : Int) (s : ShimState) :
    closeCalls (xrtGraphRun dev ghdl iterations s).2.trace = closeCalls s.trace := by
  cases hl : lookupA s.graph_cache ghdl with
  | none => simp [xrtGraphRun, get_graph_hdl, hl, handleFailure_trace]
  | some g =>
    cases hd : dev.run_graph g.handle iterations with
    | ok v =>
      simp [xrtGraphRun, get_graph_hdl, graph_impl.run, hl, hd, recordCall, closeCalls_append, closeCalls]
    | error e =>
      have h1 : (xrtGraphRun dev ghdl iterations s).2
          = handleFailure (recordCall s (DeviceCall.runGraph g.handle iterations)) e := by
        simp [xrtGraphRun, get_graph_hdl, graph_impl.run, hl, hd]
      rw [h1, handleFailure_trace]
      simp [recordCall, closeCalls_append, closeCalls]

theorem xrtGraphWaitDone_closeCalls (dev : Device) (ghdl : Nat) (timeoutMilliSec : Int) (s : ShimState) :
    closeCalls (xrtGraphWaitDone dev ghdl timeoutMilliSec s).2.trace = closeCalls s.trace := by
  cases hl : lookupA s.graph_cache ghdl with
  | none => simp [xrtGraphWaitDone, get_graph_hdl, hl, handleFailure_trace]
  | some g =>
    cases hd : dev.wait_graph_done g.handle timeoutMilliSec with
    | ok v =>
      simp [xrtGraphWaitDone, get_graph_hdl, graph_impl.wait_timeout, hl, hd, recordCall, closeCalls_append, closeCalls]
    | error e =>
      have h1 : (xrtGraphWaitDone dev ghdl timeoutMilliSec s).2
          = handleFailure (recordCall s (DeviceCall.waitGraphDone g.handle timeoutMilliSec)) e := by
        simp [xrtGraphWaitDone, get_graph_hdl, graph_impl.wait_timeout, hl, hd]
      rw [h1, handleFailure_trace]
      simp [recordCall, closeCalls_append, closeCalls]

theorem xrtGraphWait_closeCalls (dev : Device) (ghdl : Nat) (cycle : Nat) (s : ShimState) :
    closeCalls (xrtGraphWait dev ghdl cycle s).2.trace = closeCalls s.trace := by
  cases hl : lookupA s.graph_cache ghdl with
  | none => simp [xrtGraphWait, get_graph_hdl, hl, handleFailure_trace]
  | some g =>
    cases hd : dev.wait_graph g.handle cycle with
    | ok v =>
      simp [xrtGraphWait, get_graph_hdl, graph_impl.wait_cycle, hl, hd, recordCall, closeCalls_append, closeCalls]
    | error e =>
      have h1 : (xrtGraphWait dev ghdl cycle s).2
          = handleFailure (recordCall s (DeviceCall.waitGraph g.handle cycle)) e := by
        simp [xrtGraphWait, get_graph_hdl, graph_impl.wait_cycle, hl, hd]
      rw [h1, handleFailure_trace]
      simp [recordCall, closeCalls_append, closeCalls]

theorem xrtGraphSuspend_closeCalls (dev : Device) (ghdl : Nat) (s : ShimState) :
    closeCalls (xrtGraphSuspend dev ghdl s).2.trace = closeCalls s.trace := by
  cases hl : lookupA s.graph_cache ghdl with
  | none => simp [xrtGraphSuspend, get_graph_hdl, hl, handleFailure_trace]
  | some g =>
    cases hd : dev.suspend_graph g.handle with
    | ok v =>
      simp [xrtGraphSuspend, get_graph_hdl, graph_impl.suspend, hl, hd, recordCall, closeCalls_append, closeCalls]
    | error e =>
      have h1 : (xrtGraphSuspend dev ghdl s).2
          = handleFailure (recordCall s (DeviceCall.suspendGraph g.handle)) e := by
        simp [xrtGraphSuspend, get_graph_hdl, graph_impl.suspend, hl, hd]
      rw [h1, handleFailure_trace]
      simp [recordCall, closeCalls_append, closeCalls]

theorem xrtGraphResume_closeCalls (dev : Device) (ghdl : Nat) (s : ShimState) :
    closeCalls (xrtGraphResume dev ghdl s).2.trace = closeCalls s.trace := by
  cases hl : lookupA s.graph_cache ghdl with
  | none => simp [xrtGraphResume, get_graph_hdl, hl, handleFailure_trace]
  | some g =>
    cases hd : dev.resume_graph g.handle with
    | ok v =>
      simp [xrtGraphResume, get_graph_hdl, graph_impl.resume, hl, hd, recordCall, closeCalls_append, closeCalls]
    | error e =>
      have h1 : (xrtGraphResume dev ghdl s).2
          = handleFailure (recordCall s (DeviceCall.resumeGraph g.handle)) e := by
        simp [xrtGraphResume, get_graph_hdl, graph_impl.resume, hl, hd]
      rw [h1, handleFailure_trace]
      simp [recordCall, closeCalls_append, closeCalls]

theorem xrtGraphEnd_closeCalls (dev : Device) (ghdl : Nat) (cycle : Nat) (s : ShimState) :
    closeCalls (xrtGraphEnd dev ghdl cycle s).2.trace = closeCalls s.trace := by
  cases hl : lookupA s.graph_cache ghdl with
  | none => simp [xrtGraphEnd, get_graph_hdl, hl, handleFailure_trace]
  | some g =>
    cases hd : dev.end_graph g.handle cycle with
    | ok v =>
      simp [xrtGraphEnd, get_graph_hdl, graph_impl.end_graph, hl, hd, recordCall, closeCalls_append, closeCalls]
    | error e =>
      have h1 : (xrtGraphEnd dev ghdl cycle s).2
          = handleFailure (recordCall s (DeviceCall.endGraph g.handle cycle)) e := by
        simp [xrtGraphEnd, get_graph_hdl, graph_impl.end_graph, hl, hd]
      rw [h1, handleFailure_trace]
      simp [recordCall, closeCalls_append, closeCalls]

theorem xrtGraphUpdateRTP_closeCalls (dev : Device) (ghdl : Nat) (port : String) (size : Nat) (s : ShimState) :
    closeCalls (xrtGraphUpdateRTP dev ghdl port size s).2.trace = closeCalls s.trace := by
  cases hl : lookupA s.graph_cache ghdl with
  | none => simp [xrtGraphUpdateRTP, get_graph_hdl, hl, handleFailure_trace]
  | some g =>
    cases hd : dev.update_graph_rtp g.handle port size with
    | ok v =>
      simp [xrtGraphUpdateRTP, get_graph_hdl, graph_impl.update_rtp, hl, hd, recordCall, closeCalls_append, closeCalls]
    | error e =>
      have h1 : (xrtGraphUpdateRTP dev ghdl port size s).2
          = handleFailure (recordCall s (DeviceCall.updateGraphRtp g.handle port size)) e := by
        simp [xrtGraphUpdateRTP, get_graph_hdl, graph_impl.update_rtp, hl, hd]
      rw [h1, handleFailure_trace]
      simp [recordCall, closeCalls_append, closeCalls]

theorem xrtGraphReadRTP_closeCalls (dev : Device) (ghdl : Nat) (port : String) (size : Nat) (s : ShimState) :
    closeCalls (xrtGraphReadRTP dev ghdl port size s).2.trace = closeCalls s.trace := by
  cases hl : lookupA s.graph_cache ghdl with
  | none => simp [xrtGraphReadRTP, get_graph_hdl, hl, handleFailure_trace]
  | some g =>
    cases hd : dev.read_graph_rtp g.handle port size with
    | ok v =>
      simp [xrtGraphReadRTP, get_graph_hdl, graph_impl.read_rtp, hl, hd, recordCall, closeCalls_append, closeCalls]
    | error e =>
      have h1 : (xrtGraphReadRTP dev ghdl port size s).2
          = handleFailure (recordCall s (DeviceCall.readGraphRtp g.handle port size)) e := by
        simp [xrtGraphReadRTP, get_graph_hdl, graph_impl.read_rtp, hl, hd]
      rw [h1, handleFailure_trace]
      simp [recordCall, closeCalls_append, closeCalls]

theorem xrtGraphOpen_closeCalls (dev : Device) (dhdl uuid : Nat) (name : String) (s : ShimState) :
    closeCalls (xrtGraphOpen dev dhdl uuid name s).2.trace = closeCalls s.trace := by
  cases hc : dev.get_core_device dhdl with
  | error e => simp [xrtGraphOpen, open_graph_c, hc, handleFailure_trace]
  | ok u =>
    cases ho : dev.open_graph uuid name AccessMode.primary with
    | error e =>
      have h1 : (xrtGraphOpen dev dhdl uuid name s).2
          = handleFailure (recordCall s (DeviceCall.openGraph uuid name AccessMode.primary)) e := by
        simp [xrtGraphOpen, open_graph_c, hc, ho]
      rw [h1, handleFailure_trace]
      simp [recordCall, closeCalls_append, closeCalls]
    | ok h =>
      simp [xrtGraphOpen, open_graph_c, hc, ho, recordCall, closeCalls_append, closeCalls]

theorem xrtGraphOpenExclusive_closeCalls (dev : Device) (dhdl uuid : Nat) (name : String) (s : ShimState) :
    closeCalls (xrtGraphOpenExclusive dev dhdl uuid name s).2.trace = closeCalls s.trace := by
  cases hc : dev.get_core_device dhdl with
  | error e => simp [xrtGraphOpenExclusive, open_graph_c, hc, handleFailure_trace]
  | ok u =>
    cases ho : dev.open_graph uuid name AccessMode.exclusive with
    | error e =>
      have h1 : (xrtGraphOpenExclusive dev dhdl uuid name s).2
          = handleFailure (recordCall s (DeviceCall.openGraph uuid name AccessMode.exclusive)) e := by
        simp [xrtGraphOpenExclusive, open_graph_c, hc, ho]
      rw [h1, handleFailure_trace]
      simp [recordCall, closeCalls_append, closeCalls]
    | ok h =>
      simp [xrtGraphOpenExclusive, open_graph_c, hc, ho, recordCall, closeCalls_append, closeCalls]

theorem xrtGraphOpenShared_closeCalls (dev : Device) (dhdl uuid : Nat) (name : String) (s : ShimState) :
    closeCalls (xrtGraphOpenShared dev dhdl uuid name s).2.trace = closeCalls s.trace := by
  cases hc : dev.get_core_device dhdl with
  | error e => simp [xrtGraphOpenShared, open_graph_c, hc, handleFailure_trace]
  | ok u =>
    cases ho : dev.open_graph uuid name AccessMode.shared with
    | error e =>
      have h1 : (xrtGraphOpenShared dev dhdl uuid name s).2
          = handleFailure (recordCall s (DeviceCall.openGraph uuid name AccessMode.shared)) e := by
        simp [xrtGraphOpenShared, open_graph_c, hc, ho]
      rw [h1, handleFailure_trace]
      simp [recordCall, closeCalls_append, closeCalls]
    | ok h =>
      simp [xrtGraphOpenShared, open_graph_c, hc, ho, recordCall, closeCalls_append, closeCalls]

/-- Claim C6: the device-side close_graph release of a graph object's
driver handle happens exactly once, at object destruction: an explicit
plain-handle close of a registered handle removes the registry entry
(dropping the sole reference, so the destructor runs) and the trace
gains exactly the one close_graph call for that object's driver handle;
a close of an unregistered handle issues no device call at all; and no
other graph entry point (open in its three variants, reset, timestamp,
run, both waits, suspend, resume, end, update/read RTP) ever changes the
number of close_graph calls in the trace. -/
theorem claim_C6 :
    (∀ (dev : Device) (hdl : Nat) (g : graph_impl) (s : ShimState),
      lookupA s.graph_cache hdl = some g →
      (xrtGraphClose dev hdl s).2.trace = s.trace ++ [DeviceCall.closeGraph g.handle] ∧
      (xrtGraphClose dev hdl s).2.graph_cache = eraseA s.graph_cache hdl) ∧
    (∀ (dev : Device) (hdl : Nat) (s : ShimState),
      lookupA s.graph_cache hdl = none →
      (xrtGraphClose dev hdl s).2.trace = s.trace) ∧
    (∀ (dev : Device) (dhdl uuid : Nat) (name : String) (s : ShimState),
      closeCalls (xrtGraphOpen dev dhdl uuid name s).2.trace = closeCalls s.trace) ∧
    (∀ (dev : Device) (dhdl uuid : Nat) (name : String) (s : ShimState),
      closeCalls (xrtGraphOpenExclusive dev dhdl uuid name s).2.trace = closeCalls s.trace) ∧
    (∀ (dev : Device) (dhdl uuid : Nat) (name : String) (s : ShimState),
      closeCalls (xrtGraphOpenShared dev dhdl uuid name s).2.trace = closeCalls s.trace) ∧
    (∀ (dev : Device) (ghdl : Nat) (s : ShimState),
      closeCalls (xrtGraphReset dev ghdl s).2.trace = closeCalls s.trace) ∧
    (∀ (dev : Device) (ghdl : Nat) (s : ShimState),
      closeCalls (xrtGraphTimeStamp dev ghdl s).2.trace = closeCalls s.trace) ∧
    (∀ (dev : Device) (ghdl : Nat) (iterations : Int) (s : ShimState),
      closeCalls (xrtGraphRun dev ghdl iterations s).2.trace = closeCalls s.trace) ∧
    (∀ (dev : Device) (ghdl : Nat) (timeoutMilliSec : Int) (s : ShimState),
      closeCalls (xrtGraphWaitDone dev ghdl timeoutMilliSec s).2.trace = closeCalls s.trace) ∧
    (∀ (dev : Device) (ghdl : Nat) (cycle : Nat) (s : ShimState),
      closeCalls (xrtGraphWait dev ghdl cycle s).2.trace = closeCalls s.trace) ∧
    (∀ (dev : Device) (ghdl : Nat) (s : ShimState),
      closeCalls (xrtGraphSuspend dev ghdl s).2.trace = closeCalls s.trace) ∧
    (∀ (dev : Device) (ghdl : Nat) (s : ShimState),
      closeCalls (xrtGraphResume dev ghdl s).2.trace = closeCalls s.trace) ∧
    (∀ (dev : Device) (ghdl : Nat) (cycle : Nat) (s : ShimState),
      closeCalls (xrtGraphEnd dev ghdl cycle s).2.trace = closeCalls s.trace) ∧
    (∀ (dev : Device) (ghdl : Nat) (port : String) (size : Nat) (s : ShimState),
      closeCalls (xrtGraphUpdateRTP dev ghdl port size s).2.trace = closeCalls s.trace) ∧
    (∀ (dev : Device) (ghdl : Nat) (port : String) (size : Nat) (s : ShimState),
      closeCalls (xrtGraphReadRTP dev ghdl port size s).2.trace = closeCalls s.trace) := by
  refine ⟨?_, ?_, xrtGraphOpen_closeCalls, xrtGraphOpenExclusive_closeCalls,
    xrtGraphOpenShared_closeCalls, xrtGraphReset_closeCalls, xrtGraphTimeStamp_closeCalls,
    xrtGraphRun_closeCalls, xrtGraphWaitDone_closeCalls, xrtGraphWait_closeCalls,
    xrtGraphSuspend_closeCalls, xrtGraphResume_closeCalls, xrtGraphEnd_closeCalls,
    xrtGraphUpdateRTP_closeCalls, xrtGraphReadRTP_closeCalls⟩
  · intro dev hdl g s hl
    refine ⟨?_, ?_⟩ <;>
      simp [xrtGraphClose, close_graph, graph_impl.destruct, recordCall, hl]
  · intro dev hdl s hl
    have h1 : (xrtGraphClose dev hdl s).2
        = handleFailure s (CppError.stdError "Unexpected internal error") := by
      simp [xrtGraphClose, close_graph, hl]
    rw [h1, handleFailure_trace]

/-- Claim C6, witness: the theorem applied to a state holding one open
graph (explicit close releases driver handle 7 exactly once and removes
the entry) and to the empty registry (close releases nothing). -/
theorem claim_C6_witness :
    lookupA gState.graph_cache 1 = some (graph_impl.mk 7) ∧
    (xrtGraphClose okDevice 1 gState).2.trace
      = gState.trace ++ [DeviceCall.closeGraph 7] ∧
    (xrtGraphClose okDevice 1 gState).2.graph_cache = eraseA gState.graph_cache 1 ∧
    lookupA initState.graph_cache 5 = none ∧
    (xrtGraphClose okDevice 5 initState).2.trace = initState.trace :=
  ⟨rfl, (claim_C6.1 okDevice 1 (graph_impl.mk 7) gState rfl).1,
   (claim_C6.1 okDevice 1 (graph_impl.mk 7) gState rfl).2, rfl,
   claim_C6.2.1 okDevice 5 initState rfl⟩


/-! ## Boundary claims -/

theorem caught_weaken {α : Type} {good : α → Prop} {sent : α} {s : ShimState}
    {r : α × ShimState} (h : CaughtOk good s r ∨ CaughtFail sent s r) :
    CaughtOk (fun _ => True) s r ∨ CaughtFail sent s r :=
  h.imp (fun hk => ⟨trivial, hk.2.1, hk.2.2⟩) id

/-- Claim C1: for every plain-handle (C-style) entry point and every
behaviour of the device oracle — structured device or registry failures
and generic exceptions alike — each call either completes cleanly
(leaving the message log and errno untouched) or returns the sentinel
with the final state produced by the boundary failure handler
handleFailure, which logs the diagnostic; the entry points are total
functions into plain return values, so no structured failure crosses
the C-style surface. -/
theorem claim_C1 :
    (∀ (dev : Device) (dhdl uuid : Nat) (name : String) (s : ShimState),
      CaughtOk (fun _ => True) s (xrtGraphOpen dev dhdl uuid name s) ∨
      CaughtFail XRT_NULL_HANDLE s (xrtGraphOpen dev dhdl uuid name s)) ∧
    (∀ (dev : Device) (dhdl uuid : Nat) (name : String) (s : ShimState),
      CaughtOk (fun _ => True) s (xrtGraphOpenExclusive dev dhdl uuid name s) ∨
      CaughtFail XRT_NULL_HANDLE s (xrtGraphOpenExclusive dev dhdl uuid name s)) ∧
    (∀ (dev : Device) (dhdl uuid : Nat) (name : String) (s : ShimState),
      CaughtOk (fun _ => True) s (xrtGraphOpenShared dev dhdl uuid name s) ∨
      CaughtFail XRT_NULL_HANDLE s (xrtGraphOpenShared dev dhdl uuid name s)) ∧
    (∀ (dev : Device) (ghdl : Nat) (s : ShimState),
      CaughtOk (fun _ => True) s (xrtGraphClose dev ghdl s) ∨
      CaughtFail () s (xrtGraphClose dev ghdl s)) ∧
    (∀ (dev : Device) (ghdl : Nat) (s : ShimState),
      CaughtOk (fun _ => True) s (xrtGraphReset dev ghdl s) ∨
      CaughtFail (-1) s (xrtGraphReset dev ghdl s)) ∧
    (∀ (dev : Device) (ghdl : Nat) (s : ShimState),
      CaughtOk (fun _ => True) s (xrtGraphTimeStamp dev ghdl s) ∨
      CaughtFail UINT64_MAX s (xrtGraphTimeStamp dev ghdl s)) ∧
    (∀ (dev : Device) (ghdl : Nat) (iterations : Int) (s : ShimState),
      CaughtOk (fun _ => True) s (xrtGraphRun dev ghdl iterations s) ∨
      CaughtFail (-1) s (xrtGraphRun dev ghdl iterations s)) ∧
    (∀ (dev : Device) (ghdl : Nat) (timeoutMilliSec : Int) (s : ShimState),
      CaughtOk (fun _ => True) s (xrtGraphWaitDone dev ghdl timeoutMilliSec s) ∨
      CaughtFail (-1) s (xrtGraphWaitDone dev ghdl timeoutMilliSec s)) ∧
    (∀ (dev : Device) (ghdl : Nat) (cycle : Nat) (s : ShimState),
      CaughtOk (fun _ => True) s (xrtGraphWait dev ghdl cycle s) ∨
      CaughtFail (-1) s (xrtGraphWait dev ghdl cycle s)) ∧
    (∀ (dev : Device) (ghdl : Nat) (s : ShimState),
      CaughtOk (fun _ => True) s (xrtGraphSuspend dev ghdl s) ∨
      CaughtFail (-1) s (xrtGraphSuspend dev ghdl s)) ∧
    (∀ (dev : Device) (ghdl : Nat) (s : ShimState),
      CaughtOk (fun _ => True) s (xrtGraphResume dev ghdl s) ∨
      CaughtFail (-1) s (xrtGraphResume dev ghdl s)) ∧
    (∀ (dev : Device) (ghdl : Nat) (cycle : Nat) (s : ShimState),
      CaughtOk (fun _ => True) s (xrtGraphEnd dev ghdl cycle s) ∨
      CaughtFail (-1) s (xrtGraphEnd dev ghdl cycle s)) ∧
    (∀ (dev : Device) (ghdl : Nat) (port : String) (size : Nat) (s : ShimState),
      CaughtOk (fun _ => True) s (xrtGraphUpdateRTP dev ghdl port size s) ∨
      CaughtFail (-1) s (xrtGraphUpdateRTP dev ghdl port size s)) ∧
    (∀ (dev : Device) (ghdl : Nat) (port : String) (size : Nat) (s : ShimState),
      CaughtOk (fun _ => True) s (xrtGraphReadRTP dev ghdl port size s) ∨
      CaughtFail (-1) s (xrtGraphReadRTP dev ghdl port size s)) ∧
    (∀ (dev : Device) (index : Nat) (s : ShimState),
      CaughtOk (fun _ => True) s (xrtAIEDeviceOpen dev index s) ∨
      CaughtFail XRT_NULL_HANDLE s (xrtAIEDeviceOpen dev index s)) ∧
    (∀ (dev : Device) (index : Nat) (s : ShimState),
      CaughtOk (fun _ => True) s (xrtAIEDeviceOpenExclusive dev index s) ∨
      CaughtFail XRT_NULL_HANDLE s (xrtAIEDeviceOpenExclusive dev index s)) ∧
    (∀ (dev : Device) (index : Nat) (s : ShimState),
      CaughtOk (fun _ => True) s (xrtAIEDeviceOpenShared dev index s) ∨
      CaughtFail XRT_NULL_HANDLE s (xrtAIEDeviceOpenShared dev index s)) ∧
    (∀ (dev : Device) (dhdl bohdl : Nat) (gmio : String) (dir : Nat) (size offset : Nat) (s : ShimState),
      CaughtOk (fun _ => True) s (xrtSyncBOAIE dev dhdl bohdl gmio dir size offset s) ∨
      CaughtFail (-1) s (xrtSyncBOAIE dev dhdl bohdl gmio dir size offset s)) ∧
    (∀ (dev : Device) (dhdl bohdl : Nat) (gmio : String) (dir : Nat) (size offset : Nat) (s : ShimState),
      CaughtOk (fun _ => True) s (xrtAIESyncBO dev dhdl bohdl gmio dir size offset s) ∨
      CaughtFail (-1) s (xrtAIESyncBO dev dhdl bohdl gmio dir size offset s)) ∧
    (∀ (dev : Device) (dhdl bohdl : Nat) (gmio : String) (dir : Nat) (size offset : Nat) (s : ShimState),
      CaughtOk (fun _ => True) s (xrtSyncBOAIENB dev dhdl bohdl gmio dir size offset s) ∨
      CaughtFail (-1) s (xrtSyncBOAIENB dev dhdl bohdl gmio dir size offset s)) ∧
    (∀ (dev : Device) (dhdl : Nat) (s : ShimState),
      CaughtOk (fun _ => True) s (xrtResetAIEArray dev dhdl s) ∨
      CaughtFail (-1) s (xrtResetAIEArray dev dhdl s)) ∧
    (∀ (dev : Device) (dhdl : Nat) (s : ShimState),
      CaughtOk (fun _ => True) s (xrtAIEResetArray dev dhdl s) ∨
      CaughtFail (-1) s (xrtAIEResetArray dev dhdl s)) ∧
    (∀ (dev : Device) (dhdl : Nat) (gmio : String) (s : ShimState),
      CaughtOk (fun _ => True) s (xrtGMIOWait dev dhdl gmio s) ∨
      CaughtFail (-1) s (xrtGMIOWait dev dhdl gmio s)) ∧
    (∀ (dev : Device) (dhdl : Nat) (option : Int) (port1 port2 : String) (value : Nat) (s : ShimState),
      CaughtOk (fun _ => True) s (xrtAIEStartProfiling dev dhdl option port1 port2 value s) ∨
      CaughtFail (-1) s (xrtAIEStartProfiling dev dhdl option port1 port2 value s)) ∧
    (∀ (dev : Device) (pHandle : Int) (s : ShimState),
      CaughtOk (fun _ => True) s (xrtAIEReadProfiling dev pHandle s) ∨
      CaughtFail UINT64_MAX s (xrtAIEReadProfiling dev pHandle s)) ∧
    (∀ (dev : Device) (pHandle : Int) (s : ShimState),
      CaughtOk (fun _ => True) s (xrtAIEStopProfiling dev pHandle s) ∨
      CaughtFail () s (xrtAIEStopProfiling dev pHandle s)) :=
  ⟨fun dev dhdl uuid name s => caught_weaken (xrtGraphOpen_cases dev dhdl uuid name s),
   fun dev dhdl uuid name s => caught_weaken (xrtGraphOpenExclusive_cases dev dhdl uuid name s),
   fun dev dhdl uuid name s => caught_weaken (xrtGraphOpenShared_cases dev dhdl uuid name s),
   fun dev ghdl s => caught_weaken (xrtGraphClose_cases dev ghdl s),
   fun dev ghdl s => caught_weaken (xrtGraphReset_cases dev ghdl s),
   fun dev ghdl s => caught_weaken (xrtGraphTimeStamp_cases dev ghdl s),
   fun dev ghdl iterations s => caught_weaken (xrtGraphRun_cases dev ghdl iterations s),
   fun dev ghdl timeoutMilliSec s => caught_weaken (xrtGraphWaitDone_cases dev ghdl timeoutMilliSec s),
   fun dev ghdl cycle s => caught_weaken (xrtGraphWait_cases dev ghdl cycle s),
   fun dev ghdl s => caught_weaken (xrtGraphSuspend_cases dev ghdl s),
   fun dev ghdl s => caught_weaken (xrtGraphResume_cases dev ghdl s),
   fun dev ghdl cycle s => caught_weaken (xrtGraphEnd_cases dev ghdl cycle s),
   fun dev ghdl port size s => caught_weaken (xrtGraphUpdateRTP_cases dev ghdl port size s),
   fun dev ghdl port size s => caught_weaken (xrtGraphReadRTP_cases dev ghdl port size s),
   fun dev index s => caught_weaken (xrtAIEDeviceOpen_cases dev index s),
   fun dev index s => caught_weaken (xrtAIEDeviceOpenExclusive_cases dev index s),
   fun dev index s => caught_weaken (xrtAIEDeviceOpenShared_cases dev index s),
   fun dev dhdl bohdl gmio dir size offset s => caught_weaken (xrtSyncBOAIE_cases dev dhdl bohdl gmio dir size offset s),
   fun dev dhdl bohdl gmio dir size offset s => caught_weaken (xrtAIESyncBO_cases dev dhdl bohdl gmio dir size offset s),
   fun dev dhdl bohdl gmio dir size offset s => caught_weaken (xrtSyncBOAIENB_cases dev dhdl bohdl gmio dir size offset s),
   fun dev dhdl s => caught_weaken (xrtResetAIEArray_cases dev dhdl s),
   fun dev dhdl s => caught_weaken (xrtAIEResetArray_cases dev dhdl s),
   fun dev dhdl gmio s => caught_weaken (xrtGMIOWait_cases dev dhdl gmio s),
   fun dev dhdl option port1 port2 value s => caught_weaken (xrtAIEStartProfiling_cases dev dhdl option port1 port2 value s),
   fun dev pHandle s => caught_weaken (xrtAIEReadProfiling_cases dev pHandle s),
   fun dev pHandle s => caught_weaken (xrtAIEStopProfiling_cases dev pHandle s)⟩

/-- Claim C2, counterexample: a failure that does not carry a native
error code (a generic std::exception from the device) makes the entry
point return the sentinel -1 but leaves the process error-code variable
unchanged (it stays 0), refuting the unconditional "sets the process
error-code variable" part of the claim. -/
theorem claim_C2_counterexample :
    (xrtGraphReset stdFailDevice 1 gState).1 = -1 ∧
    gState.errno = 0 ∧
    (xrtGraphReset stdFailDevice 1 gState).2.errno = 0 :=
  ⟨rfl, rfl, rfl⟩

/-- Claim C2 (amended): every C-style entry point returns its success
value on success with log and errno untouched (0 for status calls, the
freshly allocated handle for graph opens, the underlying device handle
for device opens, a non-sentinel profiling handle for profiling start,
the device-reported value for timestamp/wait-status/counter reads), and
on failure returns the sentinel (-1 for status codes, UINT64_MAX for
unsigned results, the null handle for handle-returning calls; the
void-returning close and stop-profiling return nothing) with the state
passed through handleFailure, which sets the process error-code
variable exactly when the failure carries a native code and leaves it
unchanged for generic exceptions, logging the diagnostic either way. -/
theorem claim_C2 :
    (∀ (s : ShimState) (c : Int) (m : String),
      handleFailure s (CppError.xrtError c m)
        = { s with errno := c, log := s.log ++ [m] }) ∧
    (∀ (s : ShimState) (m : String),
      handleFailure s (CppError.stdError m) = { s with log := s.log ++ [m] }) ∧
    (∀ (dev : Device) (dhdl uuid : Nat) (name : String) (s : ShimState),
      CaughtOk (· = s.next_ptr) s (xrtGraphOpen dev dhdl uuid name s) ∨
      CaughtFail XRT_NULL_HANDLE s (xrtGraphOpen dev dhdl uuid name s)) ∧
    (∀ (dev : Device) (dhdl uuid : Nat) (name : String) (s : ShimState),
      CaughtOk (· = s.next_ptr) s (xrtGraphOpenExclusive dev dhdl uuid name s) ∨
      CaughtFail XRT_NULL_HANDLE s (xrtGraphOpenExclusive dev dhdl uuid name s)) ∧
    (∀ (dev : Device) (dhdl uuid : Nat) (name : String) (s : ShimState),
      CaughtOk (· = s.next_ptr) s (xrtGraphOpenShared dev dhdl uuid name s) ∨
      CaughtFail XRT_NULL_HANDLE s (xrtGraphOpenShared dev dhdl uuid name s)) ∧
    (∀ (dev : Device) (ghdl : Nat) (s : ShimState),
      CaughtOk (fun _ => True) s (xrtGraphClose dev ghdl s) ∨
      CaughtFail () s (xrtGraphClose dev ghdl s)) ∧
    (∀ (dev : Device) (ghdl : Nat) (s : ShimState),
      CaughtOk (· = 0) s (xrtGraphReset dev ghdl s) ∨
      CaughtFail (-1) s (xrtGraphReset dev ghdl s)) ∧
    (∀ (dev : Device) (ghdl : Nat) (s : ShimState),
      CaughtOk (fun _ => True) s (xrtGraphTimeStamp dev ghdl s) ∨
      CaughtFail UINT64_MAX s (xrtGraphTimeStamp dev ghdl s)) ∧
    (∀ (dev : Device) (ghdl : Nat) (iterations : Int) (s : ShimState),
      CaughtOk (· = 0) s (xrtGraphRun dev ghdl iterations s) ∨
      CaughtFail (-1) s (xrtGraphRun dev ghdl iterations s)) ∧
    (∀ (dev : Device) (ghdl : Nat) (timeoutMilliSec : Int) (s : ShimState),
      CaughtOk (fun _ => True) s (xrtGraphWaitDone dev ghdl timeoutMilliSec s) ∨
      CaughtFail (-1) s (xrtGraphWaitDone dev ghdl timeoutMilliSec s)) ∧
    (∀ (dev : Device) (ghdl : Nat) (cycle : Nat) (s : ShimState),
      CaughtOk (· = 0) s (xrtGraphWait dev ghdl cycle s) ∨
      CaughtFail (-1) s (xrtGraphWait dev ghdl cycle s)) ∧
    (∀ (dev : Device) (ghdl : Nat) (s : ShimState),
      CaughtOk (· = 0) s (xrtGraphSuspend dev ghdl s) ∨
      CaughtFail (-1) s (xrtGraphSuspend dev ghdl s)) ∧
    (∀ (dev : Device) (ghdl : Nat) (s : ShimState),
      CaughtOk (· = 0) s (xrtGraphResume dev ghdl s) ∨
      CaughtFail (-1) s (xrtGraphResume dev ghdl s)) ∧
    (∀ (dev : Device) (ghdl : Nat) (cycle : Nat) (s : ShimState),
      CaughtOk (· = 0) s (xrtGraphEnd dev ghdl cycle s) ∨
      CaughtFail (-1) s (xrtGraphEnd dev ghdl cycle s)) ∧
    (∀ (dev : Device) (ghdl : Nat) (port : String) (size : Nat) (s : ShimState),
      CaughtOk (· = 0) s (xrtGraphUpdateRTP dev ghdl port size s) ∨
      CaughtFail (-1) s (xrtGraphUpdateRTP dev ghdl port size s)) ∧
    (∀ (dev : Device) (ghdl : Nat) (port : String) (size : Nat) (s : ShimState),
      CaughtOk (· = 0) s (xrtGraphReadRTP dev ghdl port size s) ∨
      CaughtFail (-1) s (xrtGraphReadRTP dev ghdl port size s)) ∧
    (∀ (dev : Device) (index : Nat) (s : ShimState),
      CaughtOk (fun v => dev.xrt_device_open index = Except.ok v) s (xrtAIEDeviceOpen dev index s) ∨
      CaughtFail XRT_NULL_HANDLE s (xrtAIEDeviceOpen dev index s)) ∧
    (∀ (dev : Device) (index : Nat) (s : ShimState),
      CaughtOk (fun v => dev.xrt_device_open index = Except.ok v) s (xrtAIEDeviceOpenExclusive dev index s) ∨
      CaughtFail XRT_NULL_HANDLE s (xrtAIEDeviceOpenExclusive dev index s)) ∧
    (∀ (dev : Device) (index : Nat) (s : ShimState),
      CaughtOk (fun v => dev.xrt_device_open index = Except.ok v) s (xrtAIEDeviceOpenShared dev index s) ∨
      CaughtFail XRT_NULL_HANDLE s (xrtAIEDeviceOpenShared dev index s)) ∧
    (∀ (dev : Device) (dhdl bohdl : Nat) (gmio : String) (dir : Nat) (size offset : Nat) (s : ShimState),
      CaughtOk (· = 0) s (xrtSyncBOAIE dev dhdl bohdl gmio dir size offset s) ∨
      CaughtFail (-1) s (xrtSyncBOAIE dev dhdl bohdl gmio dir size offset s)) ∧
    (∀ (dev : Device) (dhdl bohdl : Nat) (gmio : String) (dir : Nat) (size offset : Nat) (s : ShimState),
      CaughtOk (· = 0) s (xrtAIESyncBO dev dhdl bohdl gmio dir size offset s) ∨
      CaughtFail (-1) s (xrtAIESyncBO dev dhdl bohdl gmio dir size offset s)) ∧
    (∀ (dev : Device) (dhdl bohdl : Nat) (gmio : String) (dir : Nat) (size offset : Nat) (s : ShimState),
      CaughtOk (· = 0) s (xrtSyncBOAIENB dev dhdl bohdl gmio dir size offset s) ∨
      CaughtFail (-1) s (xrtSyncBOAIENB dev dhdl bohdl gmio dir size offset s)) ∧
    (∀ (dev : Device) (dhdl : Nat) (s : ShimState),
      CaughtOk (· = 0) s (xrtResetAIEArray dev dhdl s) ∨
      CaughtFail (-1) s (xrtResetAIEArray dev dhdl s)) ∧
    (∀ (dev : Device) (dhdl : Nat) (s : ShimState),
      CaughtOk (· = 0) s (xrtAIEResetArray dev dhdl s) ∨
      CaughtFail (-1) s (xrtAIEResetArray dev dhdl s)) ∧
    (∀ (dev : Device) (dhdl : Nat) (gmio : String) (s : ShimState),
      CaughtOk (· = 0) s (xrtGMIOWait dev dhdl gmio s) ∨
      CaughtFail (-1) s (xrtGMIOWait dev dhdl gmio s)) ∧
    (∀ (dev : Device) (dhdl : Nat) (option : Int) (port1 port2 : String) (value : Nat) (s : ShimState),
      CaughtOk (fun v => v ≠ invalid_handle) s (xrtAIEStartProfiling dev dhdl option port1 port2 value s) ∨
      CaughtFail (-1) s (xrtAIEStartProfiling dev dhdl option port1 port2 value s)) ∧
    (∀ (dev : Device) (pHandle : Int) (s : ShimState),
      CaughtOk (fun _ => True) s (xrtAIEReadProfiling dev pHandle s) ∨
      CaughtFail UINT64_MAX s (xrtAIEReadProfiling dev pHandle s)) ∧
    (∀ (dev : Device) (pHandle : Int) (s : ShimState),
      CaughtOk (fun _ => True) s (xrtAIEStopProfiling dev pHandle s) ∨
      CaughtFail () s (xrtAIEStopProfiling dev pHandle s)) :=
  ⟨fun _ _ _ => rfl, fun _ _ => rfl,
   xrtGraphOpen_cases,
   xrtGraphOpenExclusive_cases,
   xrtGraphOpenShared_cases,
   xrtGraphClose_cases,
   xrtGraphReset_cases,
   xrtGraphTimeStamp_cases,
   xrtGraphRun_cases,
   xrtGraphWaitDone_cases,
   xrtGraphWait_cases,
   xrtGraphSuspend_cases,
   xrtGraphResume_cases,
   xrtGraphEnd_cases,
   xrtGraphUpdateRTP_cases,
   xrtGraphReadRTP_cases,
   xrtAIEDeviceOpen_cases,
   xrtAIEDeviceOpenExclusive_cases,
   xrtAIEDeviceOpenShared_cases,
   xrtSyncBOAIE_cases,
   xrtAIESyncBO_cases,
   xrtSyncBOAIENB_cases,
   xrtResetAIEArray_cases,
   xrtAIEResetArray_cases,
   xrtGMIOWait_cases,
   xrtAIEStartProfiling_cases,
   xrtAIEReadProfiling_cases,
   xrtAIEStopProfiling_cases⟩


/-- Claim C9: the two process-wide handle registries are mutated only by
graph open/close and profiling start/stop: every other entry point
(reset, timestamp, run, both waits, suspend, resume, end, update/read
runtime parameter, the three device opens, blocking and non-blocking
buffer sync, array reset, GMIO wait, profiling read) leaves both
registries unchanged on every path; graph open/close never touch the
profiling registry and profiling start/stop never touch the graph
registry; a successful open (in each of its three access-mode variants)
or start inserts exactly one entry, and a successful close or stop
removes exactly one entry. -/
theorem claim_C9 :
    (∀ (dev : Device) (ghdl : Nat) (s : ShimState),
      caches (xrtGraphReset dev ghdl s).2 = caches s) ∧
    (∀ (dev : Device) (ghdl : Nat) (s : ShimState),
      caches (xrtGraphTimeStamp dev ghdl s).2 = caches s) ∧
    (∀ (dev : Device) (ghdl : Nat) (iterations : Int) (s : ShimState),
      caches (xrtGraphRun dev ghdl iterations s).2 = caches s) ∧
    (∀ (dev : Device) (ghdl : Nat) (timeoutMilliSec : Int) (s : ShimState),
      caches (xrtGraphWaitDone dev ghdl timeoutMilliSec s).2 = caches s) ∧
    (∀ (dev : Device) (ghdl : Nat) (cycle : Nat) (s : ShimState),
      caches (xrtGraphWait dev ghdl cycle s).2 = caches s) ∧
    (∀ (dev : Device) (ghdl : Nat) (s : ShimState),
      caches (xrtGraphSuspend dev ghdl s).2 = caches s) ∧
    (∀ (dev : Device) (ghdl : Nat) (s : ShimState),
      caches (xrtGraphResume dev ghdl s).2 = caches s) ∧
    (∀ (dev : Device) (ghdl : Nat) (cycle : Nat) (s : ShimState),
      caches (xrtGraphEnd dev ghdl cycle s).2 = caches s) ∧
    (∀ (dev : Device) (ghdl : Nat) (port : String) (size : Nat) (s : ShimState),
      caches (xrtGraphUpdateRTP dev ghdl port size s).2 = caches s) ∧
    (∀ (dev : Device) (ghdl : Nat) (port : String) (size : Nat) (s : ShimState),
      caches (xrtGraphReadRTP dev ghdl port size s).2 = caches s) ∧
    (∀ (dev : Device) (index : Nat) (s : ShimState),
      caches (xrtAIEDeviceOpen dev index s).2 = caches s) ∧
    (∀ (dev : Device) (index : Nat) (s : ShimState),
      caches (xrtAIEDeviceOpenExclusive dev index s).2 = caches s) ∧
    (∀ (dev : Device) (index : Nat) (s : ShimState),
      caches (xrtAIEDeviceOpenShared dev index s).2 = caches s) ∧
    (∀ (dev : Device) (dhdl bohdl : Nat) (gmio : String) (dir : Nat) (size offset : Nat)
      (s : ShimState),
      caches (xrtSyncBOAIE dev dhdl bohdl gmio dir size offset s).2 = caches s) ∧
    (∀ (dev : Device) (dhdl bohdl : Nat) (gmio : String) (dir : Nat) (size offset : Nat)
      (s : ShimState),
      caches (xrtAIESyncBO dev dhdl bohdl gmio dir size offset s).2 = caches s) ∧
    (∀ (dev : Device) (dhdl bohdl : Nat) (gmio : String) (dir : Nat) (size offset : Nat)
      (s : ShimState),
      caches (xrtSyncBOAIENB dev dhdl bohdl gmio dir size offset s).2 = caches s) ∧
    (∀ (dev : Device) (dhdl : Nat) (s : ShimState),
      caches (xrtResetAIEArray dev dhdl s).2 = caches s) ∧
    (∀ (dev : Device) (dhdl : Nat) (s : ShimState),
      caches (xrtAIEResetArray dev dhdl s).2 = caches s) ∧
    (∀ (dev : Device) (dhdl : Nat) (gmio : String) (s : ShimState),
      caches (xrtGMIOWait dev dhdl gmio s).2 = caches s) ∧
    (∀ (dev : Device) (pHandle : Int) (s : ShimState),
      caches (xrtAIEReadProfiling dev pHandle s).2 = caches s) ∧
    (∀ (dev : Device) (dhdl uuid : Nat) (name : String) (s : ShimState),
      (xrtGraphOpen dev dhdl uuid name s).2.profiling_cache = s.profiling_cache) ∧
    (∀ (dev : Device) (dhdl uuid : Nat) (name : String) (s : ShimState),
      (xrtGraphOpenExclusive dev dhdl uuid name s).2.profiling_cache = s.profiling_cache) ∧
    (∀ (dev : Device) (dhdl uuid : Nat) (name : String) (s : ShimState),
      (xrtGraphOpenShared dev dhdl uuid name s).2.profiling_cache = s.profiling_cache) ∧
    (∀ (dev : Device) (ghdl : Nat) (s : ShimState),
      (xrtGraphClose dev ghdl s).2.profiling_cache = s.profiling_cache) ∧
    (∀ (dev : Device) (dhdl : Nat) (option : Int) (port1 port2 : String) (value : Nat)
      (s : ShimState),
      (xrtAIEStartProfiling dev dhdl option port1 port2 value s).2.graph_cache
        = s.graph_cache) ∧
    (∀ (dev : Device) (pHandle : Int) (s : ShimState),
      (xrtAIEStopProfiling dev pHandle s).2.graph_cache = s.graph_cache) ∧
    (∀ (dev : Device) (dhdl uuid : Nat) (name : String) (s : ShimState) (h : Nat),
      dev.get_core_device dhdl = Except.ok () →
      dev.open_graph uuid name AccessMode.primary = Except.ok h →
      lookupA s.graph_cache s.next_ptr = none →
      (xrtGraphOpen dev dhdl uuid name s).2.graph_cache
        = insertA s.graph_cache s.next_ptr (graph_impl.mk h) ∧
      (xrtGraphOpen dev dhdl uuid name s).2.graph_cache.length
        = s.graph_cache.length + 1 ∧
      lookupA (xrtGraphOpen dev dhdl uuid name s).2.graph_cache s.next_ptr
        = some (graph_impl.mk h)) ∧
    (∀ (dev : Device) (dhdl uuid : Nat) (name : String) (s : ShimState) (h : Nat),
      dev.get_core_device dhdl = Except.ok () →
      dev.open_graph uuid name AccessMode.exclusive = Except.ok h →
      lookupA s.graph_cache s.next_ptr = none →
      (xrtGraphOpenExclusive dev dhdl uuid name s).2.graph_cache
        = insertA s.graph_cache s.next_ptr (graph_impl.mk h) ∧
      (xrtGraphOpenExclusive dev dhdl uuid name s).2.graph_cache.length
        = s.graph_cache.length + 1 ∧
      lookupA (xrtGraphOpenExclusive dev dhdl uuid name s).2.graph_cache s.next_ptr
        = some (graph_impl.mk h)) ∧
    (∀ (dev : Device) (dhdl uuid : Nat) (name : String) (s : ShimState) (h : Nat),
      dev.get_core_device dhdl = Except.ok () →
      dev.open_graph uuid name AccessMode.shared = Except.ok h →
      lookupA s.graph_cache s.next_ptr = none →
      (xrtGraphOpenShared dev dhdl uuid name s).2.graph_cache
        = insertA s.graph_cache s.next_ptr (graph_impl.mk h) ∧
      (xrtGraphOpenShared dev dhdl uuid name s).2.graph_cache.length
        = s.graph_cache.length + 1 ∧
      lookupA (xrtGraphOpenShared dev dhdl uuid name s).2.graph_cache s.next_ptr
        = some (graph_impl.mk h)) ∧
    (∀ (dev : Device) (hdl : Nat) (g : graph_impl) (s : ShimState),
      (s.graph_cache.map Prod.fst).Nodup → lookupA s.graph_cache hdl = some g →
      (xrtGraphClose dev hdl s).2.graph_cache = eraseA s.graph_cache hdl ∧
      (xrtGraphClose dev hdl s).2.graph_cache.length + 1 = s.graph_cache.length ∧
      lookupA (xrtGraphClose dev hdl s).2.graph_cache hdl = none) ∧
    (∀ (dev : Device) (dhdl : Nat) (option : Int) (port1 port2 : String) (value : Nat)
      (s : ShimState) (h : Int),
      dev.get_core_device dhdl = Except.ok () → ¬(option < 0 ∨ 3 < option) →
      dev.start_profiling option port1 port2 value = Except.ok h → h ≠ invalid_handle →
      lookupA s.profiling_cache h = none →
      (xrtAIEStartProfiling dev dhdl option port1 port2 value s).2.profiling_cache
        = insertA s.profiling_cache h (profiling_impl.mk h) ∧
      (xrtAIEStartProfiling dev dhdl option port1 port2 value s).2.profiling_cache.length
        = s.profiling_cache.length + 1) ∧
    (∀ (dev : Device) (ph : Int) (p : profiling_impl) (s : ShimState),
      (s.profiling_cache.map Prod.fst).Nodup → lookupA s.profiling_cache ph = some p →
      p.profiling_hdl ≠ invalid_handle → dev.stop_profiling p.profiling_hdl = Except.ok () →
      (xrtAIEStopProfiling dev ph s).2.profiling_cache = eraseA s.profiling_cache ph ∧
      (xrtAIEStopProfiling dev ph s).2.profiling_cache.length + 1
        = s.profiling_cache.length ∧
      lookupA (xrtAIEStopProfiling dev ph s).2.profiling_cache ph = none) := by
  refine ⟨xrtGraphReset_frame, xrtGraphTimeStamp_frame, xrtGraphRun_frame,
    xrtGraphWaitDone_frame, xrtGraphWait_frame, xrtGraphSuspend_frame, xrtGraphResume_frame,
    xrtGraphEnd_frame, xrtGraphUpdateRTP_frame, xrtGraphReadRTP_frame, xrtAIEDeviceOpen_frame,
    xrtAIEDeviceOpenExclusive_frame, xrtAIEDeviceOpenShared_frame, xrtSyncBOAIE_frame,
    xrtAIESyncBO_frame, xrtSyncBOAIENB_frame, xrtResetAIEArray_frame, xrtAIEResetArray_frame,
    xrtGMIOWait_frame, xrtAIEReadProfiling_frame, xrtGraphOpen_pframe,
    xrtGraphOpenExclusive_pframe, xrtGraphOpenShared_pframe, xrtGraphClose_pframe,
    xrtAIEStartProfiling_gframe, xrtAIEStopProfiling_gframe, ?_, ?_, ?_, ?_, ?_, ?_⟩
  · intro dev dhdl uuid name s h hc ho hfresh
    have hcache : (xrtGraphOpen dev dhdl uuid name s).2.graph_cache
        = insertA s.graph_cache s.next_ptr (graph_impl.mk h) := by
      simp [xrtGraphOpen, open_graph_c, hc, ho, recordCall]
    refine ⟨hcache, ?_, ?_⟩
    · rw [hcache]
      exact insertA_length_of_lookup_none s.graph_cache s.next_ptr (graph_impl.mk h) hfresh
    · rw [hcache]
      exact lookupA_insertA_self s.graph_cache s.next_ptr (graph_impl.mk h)
  · intro dev dhdl uuid name s h hc ho hfresh
    have hcache : (xrtGraphOpenExclusive dev dhdl uuid name s).2.graph_cache
        = insertA s.graph_cache s.next_ptr (graph_impl.mk h) := by
      simp [xrtGraphOpenExclusive, open_graph_c, hc, ho, recordCall]
    refine ⟨hcache, ?_, ?_⟩
    · rw [hcache]
      exact insertA_length_of_lookup_none s.graph_cache s.next_ptr (graph_impl.mk h) hfresh
    · rw [hcache]
      exact lookupA_insertA_self s.graph_cache s.next_ptr (graph_impl.mk h)
  · intro dev dhdl uuid name s h hc ho hfresh
    have hcache : (xrtGraphOpenShared dev dhdl uuid name s).2.graph_cache
        = insertA s.graph_cache s.next_ptr (graph_impl.mk h) := by
      simp [xrtGraphOpenShared, open_graph_c, hc, ho, recordCall]
    refine ⟨hcache, ?_, ?_⟩
    · rw [hcache]
      exact insertA_length_of_lookup_none s.graph_cache s.next_ptr (graph_impl.mk h) hfresh
    · rw [hcache]
      exact lookupA_insertA_self s.graph_cache s.next_ptr (graph_impl.mk h)
  · intro dev hdl g s hnd hl
    have hcache : (xrtGraphClose dev hdl s).2.graph_cache = eraseA s.graph_cache hdl := by
      simp [xrtGraphClose, close_graph, graph_impl.destruct, recordCall, hl]
    refine ⟨hcache, ?_, ?_⟩
    · rw [hcache]
      exact eraseA_length_of_lookup_some s.graph_cache hdl g hl
    · rw [hcache]
      exact lookupA_eraseA_self s.graph_cache hdl hnd
  · intro dev dhdl option port1 port2 value s h hc hopt hd hh hfresh
    have hcache : (xrtAIEStartProfiling dev dhdl option port1 port2 value s).2.profiling_cache
        = insertA s.profiling_cache h (profiling_impl.mk h) := by
      simp [xrtAIEStartProfiling, create_profiling_event, profiling_impl.start_profiling,
        profiling_impl.destruct, recordCall, hc, hopt, hd, hh, hfresh]
    refine ⟨hcache, ?_⟩
    rw [hcache]
    exact insertA_length_of_lookup_none s.profiling_cache h (profiling_impl.mk h) hfresh
  · intro dev ph p s hnd hl hp hd
    have hcache : (xrtAIEStopProfiling dev ph s).2.profiling_cache
        = eraseA s.profiling_cache ph := by
      simp [xrtAIEStopProfiling, profiling_impl.stop_profiling, profiling_impl.destruct,
        recordCall, hl, hp, hd]
    refine ⟨hcache, ?_, ?_⟩
    · rw [hcache]
      exact eraseA_length_of_lookup_some s.profiling_cache ph p hl
    · rw [hcache]
      exact lookupA_eraseA_self s.profiling_cache ph hnd

/-- Claim C9, witness: the mutation conjuncts of the theorem applied to
concrete successful open/close/start/stop runs on the fake device. -/
theorem claim_C9_witness :
    (okDevice.get_core_device 0 = Except.ok () ∧
     okDevice.open_graph 11 "g1" AccessMode.primary = Except.ok 7 ∧
     lookupA initState.graph_cache initState.next_ptr = none ∧
     (xrtGraphOpen okDevice 0 11 "g1" initState).2.graph_cache
       = insertA initState.graph_cache initState.next_ptr (graph_impl.mk 7) ∧
     (xrtGraphOpen okDevice 0 11 "g1" initState).2.graph_cache.length
       = initState.graph_cache.length + 1) ∧
    (okDevice.open_graph 11 "g1" AccessMode.exclusive = Except.ok 7 ∧
     (xrtGraphOpenExclusive okDevice 0 11 "g1" initState).2.graph_cache
       = insertA initState.graph_cache initState.next_ptr (graph_impl.mk 7) ∧
     (xrtGraphOpenExclusive okDevice 0 11 "g1" initState).2.graph_cache.length
       = initState.graph_cache.length + 1) ∧
    (okDevice.open_graph 11 "g1" AccessMode.shared = Except.ok 7 ∧
     (xrtGraphOpenShared okDevice 0 11 "g1" initState).2.graph_cache
       = insertA initState.graph_cache initState.next_ptr (graph_impl.mk 7) ∧
     (xrtGraphOpenShared okDevice 0 11 "g1" initState).2.graph_cache.length
       = initState.graph_cache.length + 1) ∧
    ((gState.graph_cache.map Prod.fst).Nodup ∧
     lookupA gState.graph_cache 1 = some (graph_impl.mk 7) ∧
     (xrtGraphClose okDevice 1 gState).2.graph_cache.length + 1
       = gState.graph_cache.length) ∧
    (okDevice.get_core_device 0 = Except.ok () ∧ ¬((1 : Int) < 0 ∨ (3 : Int) < 1) ∧
     okDevice.start_profiling 1 "P0" "P1" 1024 = Except.ok 9 ∧
     lookupA initState.profiling_cache 9 = none ∧
     (xrtAIEStartProfiling okDevice 0 1 "P0" "P1" 1024 initState).2.profiling_cache.length
       = initState.profiling_cache.length + 1) ∧
    ((pState.profiling_cache.map Prod.fst).Nodup ∧
     lookupA pState.profiling_cache 9 = some (profiling_impl.mk 9) ∧
     okDevice.stop_profiling 9 = Except.ok () ∧
     (xrtAIEStopProfiling okDevice 9 pState).2.profiling_cache.length + 1
       = pState.profiling_cache.length) := by
  obtain ⟨-, -, -, -, -, -, -, -, -, -, -, -, -, -, -, -, -, -, -, -, -, -, -, -, -, -,
    hopen, hopenEx, hopenSh, hclose, hstart, hstop⟩ := claim_C9
  refine ⟨⟨rfl, rfl, rfl, ?_, ?_⟩, ⟨rfl, ?_, ?_⟩, ⟨rfl, ?_, ?_⟩, ⟨by decide, rfl, ?_⟩,
    ⟨rfl, by decide, rfl, rfl, ?_⟩, ⟨by decide, rfl, rfl, ?_⟩⟩
  · exact (hopen okDevice 0 11 "g1" initState 7 rfl rfl rfl).1
  · exact (hopen okDevice 0 11 "g1" initState 7 rfl rfl rfl).2.1
  · exact (hopenEx okDevice 0 11 "g1" initState 7 rfl rfl rfl).1
  · exact (hopenEx okDevice 0 11 "g1" initState 7 rfl rfl rfl).2.1
  · exact (hopenSh okDevice 0 11 "g1" initState 7 rfl rfl rfl).1
  · exact (hopenSh okDevice 0 11 "g1" initState 7 rfl rfl rfl).2.1
  · exact (hclose okDevice 1 (graph_impl.mk 7) gState (by decide) rfl).2.1
  · exact (hstart okDevice 0 1 "P0" "P1" 1024 initState 9 rfl (by decide) rfl (by decide) rfl).2
  · exact (hstop okDevice 9 (profiling_impl.mk 9) pState (by decide) rfl (by decide) rfl).2.1

end Xrt
